import Mathlib

/-!
Verification development for the customizable multi-head attention module of
the `he-compliant-approximation` repository
(`src/hela/approximation/approximators/multihead/customizable_multihead.py`).

The embedding works over exact rationals: a floating-point tensor is modelled
as a shape together with an entry function `ℕ → … → ℚ` (entries outside the
shape are irrelevant garbage, as in a contiguous buffer).  The transcendental
functions that the code takes from the math library (`math.sqrt`, the
exponential inside `Softmax`) and the randomized `dropout` kernel are
abstract function parameters: every theorem quantifies over them, which is
sound because the code under verification only ever composes them.
-/

namespace Hela

/-- Rank-1 float tensor: a length and an entry function. -/
structure Tensor1 where
  n0 : ℕ
  ent : ℕ → ℚ

/-- Rank-2 float tensor. -/
structure Tensor2 where
  n0 : ℕ
  n1 : ℕ
  ent : ℕ → ℕ → ℚ

/-- Rank-3 float tensor. -/
structure Tensor3 where
  n0 : ℕ
  n1 : ℕ
  n2 : ℕ
  ent : ℕ → ℕ → ℕ → ℚ

/-- Rank-4 float tensor. -/
structure Tensor4 where
  n0 : ℕ
  n1 : ℕ
  n2 : ℕ
  n3 : ℕ
  ent : ℕ → ℕ → ℕ → ℕ → ℚ

/-- Rank-1 boolean tensor. -/
structure BTensor1 where
  n0 : ℕ
  ent : ℕ → Bool

/-- Rank-2 boolean tensor. -/
structure BTensor2 where
  n0 : ℕ
  n1 : ℕ
  ent : ℕ → ℕ → Bool

/-- Rank-3 boolean tensor. -/
structure BTensor3 where
  n0 : ℕ
  n1 : ℕ
  n2 : ℕ
  ent : ℕ → ℕ → ℕ → Bool

/-- Rank-4 boolean tensor. -/
structure BTensor4 where
  n0 : ℕ
  n1 : ℕ
  n2 : ℕ
  n3 : ℕ
  ent : ℕ → ℕ → ℕ → ℕ → Bool

/-- Index adjustment for size-1 broadcasting: a dimension of extent 1 is read
at position 0 whatever the requested index is. -/
def bIdx (n i : ℕ) : ℕ := if n = 1 then 0 else i

/-- Swap the first two dimensions (`Tensor.transpose(0, 1)`, equivalently
`transpose(1, 0)`). -/
def Tensor3.transpose01 (t : Tensor3) : Tensor3 :=
  ⟨t.n1, t.n0, t.n2, fun i j k => t.ent j i k⟩

/-- Swap the last two dimensions (`Tensor.transpose(-2, -1)`). -/
def Tensor3.transpose12 (t : Tensor3) : Tensor3 :=
  ⟨t.n0, t.n2, t.n1, fun i j k => t.ent i k j⟩

/-- Batched matrix product (`torch.bmm`): `(B, N, M) x (B, M, P) -> (B, N, P)`. -/
def Tensor3.bmm (a b : Tensor3) : Tensor3 :=
  ⟨a.n0, a.n1, b.n2, fun p i j => ∑ m ∈ Finset.range a.n2, a.ent p i m * b.ent p m j⟩

/-- Divide every entry by a scalar (`t / c`). -/
def Tensor3.divScalar (t : Tensor3) (c : ℚ) : Tensor3 :=
  ⟨t.n0, t.n1, t.n2, fun i j k => t.ent i j k / c⟩

/-- Element-wise in-place addition `a += b` with size-1 broadcasting of `b`;
the result keeps the shape of `a`, as the in-place torch op does. -/
def Tensor3.addInto (a b : Tensor3) : Tensor3 :=
  ⟨a.n0, a.n1, a.n2, fun i j k =>
    a.ent i j k + b.ent (bIdx b.n0 i) (bIdx b.n1 j) (bIdx b.n2 k)⟩

/-- Concatenation along dimension 0 (`torch.cat([a, b])`). -/
def Tensor3.cat0 (a b : Tensor3) : Tensor3 :=
  ⟨a.n0 + b.n0, a.n1, a.n2, fun i j k =>
    if i < a.n0 then a.ent i j k else b.ent (i - a.n0) j k⟩

/-- Concatenation along dimension 1 (`torch.cat([a, b], dim=1)`). -/
def Tensor3.cat1 (a b : Tensor3) : Tensor3 :=
  ⟨a.n0, a.n1 + b.n1, a.n2, fun i j k =>
    if j < a.n1 then a.ent i j k else b.ent i (j - a.n1) k⟩

/-- All-zero rank-3 tensor (`torch.zeros`). -/
def Tensor3.zeros (a b c : ℕ) : Tensor3 := ⟨a, b, c, fun _ _ _ => 0⟩

/-- Tiling (`Tensor.repeat(r0, r1, r2)`). -/
def Tensor3.repeatDims (t : Tensor3) (r0 r1 r2 : ℕ) : Tensor3 :=
  ⟨t.n0 * r0, t.n1 * r1, t.n2 * r2, fun i j k =>
    t.ent (i % t.n0) (j % t.n1) (k % t.n2)⟩

/-- Pad the last dimension by one trailing zero column
(`torch.nn.functional.pad(t, (0, 1))`). -/
def Tensor3.pad1 (t : Tensor3) : Tensor3 :=
  ⟨t.n0, t.n1, t.n2 + 1, fun i j k => if k < t.n2 then t.ent i j k else 0⟩

/-- Pad the last dimension of a boolean mask by one trailing `False` column. -/
def BTensor3.pad1 (m : BTensor3) : BTensor3 :=
  ⟨m.n0, m.n1, m.n2 + 1, fun i j k => if k < m.n2 then m.ent i j k else false⟩

/-- Pad the last dimension of a rank-2 boolean mask by one trailing `False`. -/
def BTensor2.pad1 (m : BTensor2) : BTensor2 :=
  ⟨m.n0, m.n1 + 1, fun i j => if j < m.n1 then m.ent i j else false⟩

/-- Element-wise logical or with size-1 broadcasting (`Tensor.logical_or`). -/
def BTensor3.logicalOr (a b : BTensor3) : BTensor3 :=
  ⟨max a.n0 b.n0, max a.n1 b.n1, max a.n2 b.n2, fun i j k =>
    a.ent (bIdx a.n0 i) (bIdx a.n1 j) (bIdx a.n2 k) ||
      b.ent (bIdx b.n0 i) (bIdx b.n1 j) (bIdx b.n2 k)⟩

/-- Out-of-place `Tensor.masked_fill(mask, v)` with two-way size-1
broadcasting between the tensor and the mask. -/
def Tensor3.maskedFill (t : Tensor3) (m : BTensor3) (v : ℚ) : Tensor3 :=
  ⟨max t.n0 m.n0, max t.n1 m.n1, max t.n2 m.n2, fun i j k =>
    if m.ent (bIdx m.n0 i) (bIdx m.n1 j) (bIdx m.n2 k) then v
    else t.ent (bIdx t.n0 i) (bIdx t.n1 j) (bIdx t.n2 k)⟩

/-- Convert a boolean exclusion mask to additive-float form: `v` at masked
positions, `0` elsewhere (`zeros_like` followed by `masked_fill_`). -/
def BTensor3.toFloat (m : BTensor3) (v : ℚ) : Tensor3 :=
  ⟨m.n0, m.n1, m.n2, fun i j k => if m.ent i j k then v else 0⟩

/-- Promote a `[L, E]` tensor to `[L, 1, E]` (`Tensor.unsqueeze(1)`). -/
def Tensor2.unsqueeze1 (t : Tensor2) : Tensor3 :=
  ⟨t.n0, 1, t.n1, fun i _ k => t.ent i k⟩

/-- Promote a `[A, B]` tensor to `[1, A, B]` (`Tensor.unsqueeze(0)`). -/
def Tensor2.unsqueeze0 (t : Tensor2) : Tensor3 :=
  ⟨1, t.n0, t.n1, fun _ i j => t.ent i j⟩

/-- Promote a rank-2 boolean mask to `[1, A, B]` (`Tensor.unsqueeze(0)`). -/
def BTensor2.unsqueeze0 (m : BTensor2) : BTensor3 :=
  ⟨1, m.n0, m.n1, fun _ i j => m.ent i j⟩

/-- Promote a rank-1 boolean mask to `[1, A]` (`Tensor.unsqueeze(0)`). -/
def BTensor1.unsqueeze0 (m : BTensor1) : BTensor2 :=
  ⟨1, m.n0, fun _ i => m.ent i⟩

/-- Drop the (size-1) middle dimension of a `[L, 1, E]` tensor
(`Tensor.squeeze(1)`). -/
def Tensor3.squeeze1 (t : Tensor3) : Tensor2 :=
  ⟨t.n0, t.n2, fun i k => t.ent i 0 k⟩

/-- Drop the (size-1) leading dimension of a `[1, A, B]` tensor
(`Tensor.squeeze(0)`). -/
def Tensor3.squeeze0 (t : Tensor3) : Tensor2 :=
  ⟨t.n1, t.n2, fun i j => t.ent 0 i j⟩

/-- Drop the (size-1) leading dimension of a `[1, A, B, C]` tensor
(`Tensor.squeeze(0)`). -/
def Tensor4.squeeze0 (t : Tensor4) : Tensor3 :=
  ⟨t.n1, t.n2, t.n3, fun i j k => t.ent 0 i j k⟩

/-- Entry of the contiguous flattening of a rank-3 tensor. -/
def Tensor3.flat (t : Tensor3) (f : ℕ) : ℚ :=
  t.ent (f / (t.n1 * t.n2)) (f / t.n2 % t.n1) (f % t.n2)

/-- Contiguous reshape of a rank-3 tensor to a rank-3 shape (`Tensor.view`). -/
def Tensor3.view3 (t : Tensor3) (a b c : ℕ) : Tensor3 :=
  ⟨a, b, c, fun i j k => t.flat ((i * b + j) * c + k)⟩

/-- Contiguous reshape of a rank-3 tensor to a rank-4 shape (`Tensor.view`). -/
def Tensor3.view4 (t : Tensor3) (a b c d : ℕ) : Tensor4 :=
  ⟨a, b, c, d, fun w x y z => t.flat (((w * b + x) * c + y) * d + z)⟩

/-- Entry of the contiguous flattening of a rank-2 boolean tensor. -/
def BTensor2.flat (m : BTensor2) (f : ℕ) : Bool :=
  m.ent (f / m.n1) (f % m.n1)

/-- Contiguous reshape of a rank-2 boolean mask to a rank-4 shape
(`Tensor.view`). -/
def BTensor2.view4 (m : BTensor2) (a b c d : ℕ) : BTensor4 :=
  ⟨a, b, c, d, fun w x y z => m.flat (((w * b + x) * c + y) * d + z)⟩

/-- Expansion of dimension 1 of a rank-4 boolean tensor, the other
dimensions kept (`Tensor.expand(-1, h, -1, -1)`); only meaningful when
dimension 1 has extent 1, which is how the code uses it. -/
def BTensor4.expandDim1 (m : BTensor4) (h : ℕ) : BTensor4 :=
  ⟨m.n0, h, m.n2, m.n3, fun w x y z => m.ent w (bIdx m.n1 x) y z⟩

/-- Entry of the contiguous flattening of a rank-4 boolean tensor. -/
def BTensor4.flat (m : BTensor4) (f : ℕ) : Bool :=
  m.ent (f / (m.n1 * m.n2 * m.n3)) (f / (m.n2 * m.n3) % m.n1)
    (f / m.n3 % m.n2) (f % m.n3)

/-- Contiguous reshape of a rank-4 boolean tensor to a rank-3 shape
(`Tensor.reshape`). -/
def BTensor4.reshape3 (m : BTensor4) (a b c : ℕ) : BTensor3 :=
  ⟨a, b, c, fun i j k => m.flat ((i * b + j) * c + k)⟩

/-- Sum over the head dimension of a `[B, H, L, S]` weight tensor
(`Tensor.sum(dim=1)`). -/
def Tensor4.sumDim1 (t : Tensor4) : Tensor3 :=
  ⟨t.n0, t.n2, t.n3, fun b i j => ∑ h ∈ Finset.range t.n1, t.ent b h i j⟩

/-- Slice `len` rows of a matrix starting at row `off` (one chunk of
`Tensor.chunk` along dimension 0). -/
def Tensor2.slice0 (w : Tensor2) (off len : ℕ) : Tensor2 :=
  ⟨len, w.n1, fun i j => w.ent (off + i) j⟩

/-- Slice `len` entries of a vector starting at `off` (one chunk of
`Tensor.chunk`). -/
def Tensor1.slice (b : Tensor1) (off len : ℕ) : Tensor1 :=
  ⟨len, fun i => b.ent (off + i)⟩

/-- The affine map `torch.nn.functional.linear`: `x W^T + b` applied to the
last dimension of a rank-3 input. -/
def linear (x : Tensor3) (w : Tensor2) (b : Option Tensor1) : Tensor3 :=
  ⟨x.n0, x.n1, w.n0, fun i j o =>
    (∑ m ∈ Finset.range x.n2, x.ent i j m * w.ent o m) +
      (match b with
       | some bb => bb.ent o
       | none => 0)⟩

/-! ### Models of the torch helpers imported by the module

`customizable_multihead.py` imports `_in_projection_packed`, `_in_projection`,
`linear`, `dropout` and `nn.Softmax` from torch; the reference
`nn.MultiheadAttention` uses the same helpers, so the same models serve both
sides of the refinement claim. -/

/-- Chunk size used by `Tensor.chunk(3)`: ceiling division by three. -/
def chunkSize3 (n : ℕ) : ℕ := (n + 2) / 3

/-- Model of `torch.nn.functional._in_projection_packed`: one packed weight
matrix is split in three equal row chunks (and the bias likewise) and each of
query/key/value is projected through its own chunk. -/
def _in_projection_packed (q k v : Tensor3) (w : Tensor2) (b : Option Tensor1) :
    Tensor3 × Tensor3 × Tensor3 :=
  let c := chunkSize3 w.n0
  let bc := fun r => match b with
    | some bb => some (bb.slice (r * chunkSize3 bb.n0) (chunkSize3 bb.n0))
    | none => none
  (linear q (w.slice0 (0 * c) c) (bc 0),
   linear k (w.slice0 (1 * c) c) (bc 1),
   linear v (w.slice0 (2 * c) c) (bc 2))

/-- Model of `torch.nn.functional._in_projection`: independent projections of
query, key and value through separate weight matrices and biases. -/
def _in_projection (q k v : Tensor3) (wq wk wv : Tensor2)
    (bq bk bv : Option Tensor1) : Tensor3 × Tensor3 × Tensor3 :=
  (linear q wq bq, linear k wk bk, linear v wv bv)

/-- Model of `nn.Softmax(dim=-1)`: exponential-normalization of each row of
the last dimension, with the exponential an abstract parameter. -/
def softmaxLastDim (expFn : ℚ → ℚ) (t : Tensor3) : Tensor3 :=
  ⟨t.n0, t.n1, t.n2, fun i j k =>
    expFn (t.ent i j k) / ∑ m ∈ Finset.range t.n2, expFn (t.ent i j m)⟩

/-- Type of an abstract `torch.nn.functional.dropout` kernel: given the
dropout probability it rescales/zeroes entries; which entries are zeroed is
the hidden randomness this parameter stands for. -/
abbrev DropoutFn := ℚ → Tensor3 → Tensor3

/-! ### The repository's kernel primitives -/

/-- Type of a substitutable kernel function (`kernel_function`). -/
abbrev KernelFn := Tensor3 → Tensor3

/-- Type of a substitutable masking function (`attn_masking_function`). -/
abbrev MaskingFn := Tensor3 → Option Tensor3 → ℚ → Tensor3

/-- Type of a substitutable query-key product (`query_key_product`). -/
abbrev ProductFn := Tensor3 → Tensor3 → Tensor3

/-- Type of a substitutable attention function (`attention_function`),
taking q, k, v, the finalized additive mask, the dropout probability, and the
three other pluggable functions together with the mask fill value. -/
abbrev AttentionFn :=
  Tensor3 → Tensor3 → Tensor3 → Option Tensor3 → ℚ →
    KernelFn → ℚ → MaskingFn → ProductFn → Tensor3 × Tensor3

/-- Model of `_scaled_dot_product` (lines 130-144): the query is divided by
`math.sqrt(E)` (with `E` the trailing dimension) and multiplied against the
transposed key. -/
def _scaled_dot_product (sqrtFn : ℚ → ℚ) (query key : Tensor3) : Tensor3 :=
  Tensor3.bmm (query.divScalar (sqrtFn (query.n2 : ℚ))) key.transpose12

/-- Model of `_attn_masking` (lines 147-161), value-level semantics: the mask
is added onto the scores when present (`attn += attn_mask`), the scores are
returned unchanged when absent; the `attn_mask_value` argument is ignored. -/
def _attn_masking (attn : Tensor3) (attn_mask : Option Tensor3)
    (attn_mask_value : ℚ) : Tensor3 :=
  match attn_mask with
  | some m => attn.addInto m
  | none => attn

/-- Model of `_scaled_dot_product_attention` (lines 164-186): query-key
product, masking, kernel, optional dropout, and the final product with the
values.  The dropout kernel is the abstract `dFn` (the imported
`torch.nn.functional.dropout`). -/
def _scaled_dot_product_attention (dFn : DropoutFn)
    (q k v : Tensor3) (attn_mask : Option Tensor3) (dropout_p : ℚ)
    (kernel_function : KernelFn) (attn_mask_value : ℚ)
    (attn_masking_function : MaskingFn) (query_key_product : ProductFn) :
    Tensor3 × Tensor3 :=
  let attn := query_key_product q k
  let attn := attn_masking_function attn attn_mask attn_mask_value
  let attn := kernel_function attn
  let attn := if dropout_p > 0 then dFn dropout_p attn else attn
  (attn.bmm v, attn)

/-! ### Engine data types -/

/-- Tensor-computation stages recorded by the execution engine; an error
value carries the list of stages that had already executed when the error was
raised. -/
inductive Event where
  | inProjection
  | attentionStage
  | outProjection
deriving DecidableEq

/-- Validation failures of the engine, one constructor per `assert`/`raise`
site of `_multi_head_attention_forward`. -/
inductive MhaError where
  | embedDimMismatch
  | headDimNotDivisible
  | kvSeqBatchMismatch
  | kvShapeMismatch
  | missingPackedWeight
  | missingQProjWeight
  | missingKProjWeight
  | missingVProjWeight
  | attnMask2DShape
  | attnMask3DShape
  | biasWithStaticKey
  | biasWithStaticValue
  | biasKVInconsistent
  | staticKDim0
  | staticKDim2
  | staticVDim0
  | staticVDim2
  | keyPaddingMaskShape
  | notCustomizableModule
deriving DecidableEq

/-- A rank-2 attention mask: boolean exclusion mask or floating additive
mask.  A byte mask is deprecated-coerced to boolean by the code with
unchanged values, so it is represented by the boolean constructor. -/
inductive MaskData2 where
  | boolMask (m : BTensor2)
  | floatMask (m : Tensor2)

/-- A rank-3 (or already normalized) attention mask. -/
inductive FMask where
  | boolMask (m : BTensor3)
  | floatMask (m : Tensor3)

/-- The `attn_mask` argument: rank 2 or rank 3 (`_mha_shape_check` rejects
every other rank before the engine body runs). -/
inductive AttnMaskIn where
  | rank2 (m : MaskData2)
  | rank3 (m : FMask)

/-- The query/key/value argument triple, batched `[L, N, E]` or unbatched
`[L, E]`, together with the key padding mask of the matching rank (the rank
constraints `_mha_shape_check` enforces). -/
inductive MhaInput where
  | batched (q k v : Tensor3) (kpm : Option BTensor2)
  | unbatched (q k v : Tensor2) (kpm : Option BTensor1)

/-- Whether the input is batched (`query.dim() == 3`). -/
def MhaInput.isBatched : MhaInput → Bool
  | .batched _ _ _ _ => true
  | .unbatched _ _ _ _ => false

/-- The query promoted to a batched tensor (`query.unsqueeze(1)` when the
input is unbatched). -/
def MhaInput.query3 : MhaInput → Tensor3
  | .batched q _ _ _ => q
  | .unbatched q _ _ _ => q.unsqueeze1

/-- The key promoted to a batched tensor. -/
def MhaInput.key3 : MhaInput → Tensor3
  | .batched _ k _ _ => k
  | .unbatched _ k _ _ => k.unsqueeze1

/-- The value promoted to a batched tensor. -/
def MhaInput.value3 : MhaInput → Tensor3
  | .batched _ _ v _ => v
  | .unbatched _ _ v _ => v.unsqueeze1

/-- The key padding mask promoted to rank 2 (`unsqueeze(0)` when the input is
unbatched). -/
def MhaInput.kpm2 : MhaInput → Option BTensor2
  | .batched _ _ _ kpm => kpm
  | .unbatched _ _ _ kpm => kpm.map BTensor1.unsqueeze0

/-! ### Engine stages -/

/-- Mask preparation (lines 472-500): a 2-D mask must have shape
`[tgt_len, src_len]` and is broadcast to rank 3 by `unsqueeze(0)`; a 3-D mask
must have shape `[bsz * num_heads, tgt_len, src_len]`. -/
def prepAttnMask (attn_mask : Option AttnMaskIn)
    (tgt_len src_len bsz num_heads : ℕ) : Except MhaError (Option FMask) :=
  match attn_mask with
  | none => .ok none
  | some (.rank2 (.boolMask m)) =>
      if m.n0 = tgt_len ∧ m.n1 = src_len then .ok (some (.boolMask m.unsqueeze0))
      else .error .attnMask2DShape
  | some (.rank2 (.floatMask m)) =>
      if m.n0 = tgt_len ∧ m.n1 = src_len then .ok (some (.floatMask m.unsqueeze0))
      else .error .attnMask2DShape
  | some (.rank3 (.boolMask m)) =>
      if m.n0 = bsz * num_heads ∧ m.n1 = tgt_len ∧ m.n2 = src_len then
        .ok (some (.boolMask m))
      else .error .attnMask3DShape
  | some (.rank3 (.floatMask m)) =>
      if m.n0 = bsz * num_heads ∧ m.n1 = tgt_len ∧ m.n2 = src_len then
        .ok (some (.floatMask m))
      else .error .attnMask3DShape

/-- Expansion of the key padding mask (lines 573-577):
`view(bsz, 1, 1, src).expand(-1, H, -1, -1).reshape(bsz * H, 1, src)`. -/
def expandKeyPaddingMask (kp : BTensor2) (bsz num_heads src_len : ℕ) : BTensor3 :=
  ((kp.view4 bsz 1 1 src_len).expandDim1 num_heads).reshape3 (bsz * num_heads) 1 src_len

/-- Merge of the key padding mask into the attention mask (lines 567-583):
shape check, expansion, then logical-or / masked-fill / direct adoption
depending on the dtype combination. -/
def mergeKeyPaddingMask (key_padding_mask : Option BTensor2)
    (attn_mask : Option FMask) (bsz num_heads src_len : ℕ)
    (attn_mask_value : ℚ) : Except MhaError (Option FMask) :=
  match key_padding_mask with
  | none => .ok attn_mask
  | some kp =>
      if kp.n0 = bsz ∧ kp.n1 = src_len then
        let kpe := expandKeyPaddingMask kp bsz num_heads src_len
        match attn_mask with
        | none => .ok (some (.boolMask kpe))
        | some (.boolMask m) => .ok (some (.boolMask (m.logicalOr kpe)))
        | some (.floatMask m) => .ok (some (.floatMask (m.maskedFill kpe attn_mask_value)))
      else .error .keyPaddingMaskShape

/-- Conversion of a remaining boolean mask to floating additive form
(lines 586-589). -/
def finalizeMask (attn_mask : Option FMask) (attn_mask_value : ℚ) :
    Option Tensor3 :=
  match attn_mask with
  | none => none
  | some (.boolMask m) => some (m.toFloat attn_mask_value)
  | some (.floatMask m) => some m

/-- Key/value shape validation (lines 431-439): with separate projection
weights only the sequence and batch dimensions must agree, otherwise the
full shapes must match. -/
def kvShapeCheck (use_separate_proj_weight : Bool) (key value : Tensor3) :
    Except MhaError Unit :=
  if use_separate_proj_weight then
    if key.n0 = value.n0 ∧ key.n1 = value.n1 then .ok ()
    else .error .kvSeqBatchMismatch
  else
    if key.n0 = value.n0 ∧ key.n1 = value.n1 ∧ key.n2 = value.n2 then .ok ()
    else .error .kvShapeMismatch

/-- In-projection (lines 444-470): packed single-matrix projection, or
separate per-Q/K/V projections with the bias chunked in three. -/
def inProjectionStage (use_separate_proj_weight : Bool)
    (query key value : Tensor3) (in_proj_weight : Option Tensor2)
    (in_proj_bias : Option Tensor1)
    (q_proj_weight k_proj_weight v_proj_weight : Option Tensor2) :
    Except MhaError (Tensor3 × Tensor3 × Tensor3) :=
  if use_separate_proj_weight then
    match q_proj_weight with
    | none => .error .missingQProjWeight
    | some wq =>
      match k_proj_weight with
      | none => .error .missingKProjWeight
      | some wk =>
        match v_proj_weight with
        | none => .error .missingVProjWeight
        | some wv =>
          let bqkv := match in_proj_bias with
            | none => (none, none, none)
            | some b =>
                (some (b.slice (0 * chunkSize3 b.n0) (chunkSize3 b.n0)),
                 some (b.slice (1 * chunkSize3 b.n0) (chunkSize3 b.n0)),
                 some (b.slice (2 * chunkSize3 b.n0) (chunkSize3 b.n0)))
          .ok (_in_projection query key value wq wk wv bqkv.1 bqkv.2.1 bqkv.2.2)
  else
    match in_proj_weight with
    | none => .error .missingPackedWeight
    | some w => .ok (_in_projection_packed query key value w in_proj_bias)

/-- Pad every variant of an optional attention mask by one trailing column
(`pad(attn_mask, (0, 1))`). -/
def padMaskOpt (attn_mask : Option FMask) : Option FMask :=
  attn_mask.map fun fm => match fm with
    | .boolMask m => .boolMask m.pad1
    | .floatMask m => .floatMask m.pad1

/-- Bias key/value injection (lines 510-521): the learned bias vectors are
tiled over the batch and concatenated onto the source axis, masks are padded
by one column; bias is incompatible with static key/value, and a one-sided
bias is rejected. -/
def biasKVStage (bias_k bias_v : Option Tensor3)
    (static_k static_v : Option Tensor3) (bsz : ℕ) (k v : Tensor3)
    (attn_mask : Option FMask) (key_padding_mask : Option BTensor2) :
    Except MhaError (Tensor3 × Tensor3 × Option FMask × Option BTensor2) :=
  match bias_k, bias_v with
  | some bk, some bv =>
      if static_k.isSome then .error .biasWithStaticKey
      else if static_v.isSome then .error .biasWithStaticValue
      else .ok (k.cat0 (bk.repeatDims 1 bsz 1), v.cat0 (bv.repeatDims 1 bsz 1),
                padMaskOpt attn_mask, key_padding_mask.map BTensor2.pad1)
  | none, none => .ok (k, v, attn_mask, key_padding_mask)
  | _, _ => .error .biasKVInconsistent

/-- Multi-head reshape of the key, or validation of a static key override
(lines 527-537). -/
def staticKStage (static_k : Option Tensor3) (k : Tensor3)
    (bszHeads head_dim : ℕ) : Except MhaError Tensor3 :=
  match static_k with
  | none => .ok ((k.view3 k.n0 bszHeads head_dim).transpose01)
  | some sk =>
      if sk.n0 = bszHeads then
        if sk.n2 = head_dim then .ok sk else .error .staticKDim2
      else .error .staticKDim0

/-- Multi-head reshape of the value, or validation of a static value
override (lines 538-548). -/
def staticVStage (static_v : Option Tensor3) (v : Tensor3)
    (bszHeads head_dim : ℕ) : Except MhaError Tensor3 :=
  match static_v with
  | none => .ok ((v.view3 v.n0 bszHeads head_dim).transpose01)
  | some sv =>
      if sv.n0 = bszHeads then
        if sv.n2 = head_dim then .ok sv else .error .staticVDim2
      else .error .staticVDim0

/-- Zero-attention padding (lines 551-562): one all-zero source position is
appended to key and value, and both masks are padded accordingly. -/
def zeroAttnStage (add_zero_attn : Bool) (bszHeads head_dim : ℕ)
    (k v : Tensor3) (attn_mask : Option FMask)
    (key_padding_mask : Option BTensor2) :
    Tensor3 × Tensor3 × Option FMask × Option BTensor2 :=
  if add_zero_attn then
    (k.cat1 (Tensor3.zeros bszHeads 1 head_dim),
     v.cat1 (Tensor3.zeros bszHeads 1 head_dim),
     padMaskOpt attn_mask, key_padding_mask.map BTensor2.pad1)
  else (k, v, attn_mask, key_padding_mask)

/-- Data computed by the engine body up to and including the output
projection; the tail (weight reshaping/averaging and unbatch squeezing) is a
pure function of it. -/
structure CoreOut where
  is_batched : Bool
  tgt_len : ℕ
  bsz : ℕ
  embed_dim : ℕ
  src_len : ℕ
  raw_weights : Tensor3
  attn_output : Tensor3

/-- Body of `_multi_head_attention_forward` (lines 402-610) up to the output
projection.  An error carries the tensor-computation stages that had already
executed when it was raised. -/
def mhaCore (input : MhaInput) (embed_dim_to_check num_heads : ℕ)
    (in_proj_weight : Option Tensor2) (in_proj_bias : Option Tensor1)
    (bias_k bias_v : Option Tensor3) (add_zero_attn : Bool) (dropout_p : ℚ)
    (training : Bool) (attn_mask : Option AttnMaskIn)
    (use_separate_proj_weight : Bool)
    (q_proj_weight k_proj_weight v_proj_weight : Option Tensor2)
    (static_k static_v : Option Tensor3)
    (out_proj_weight : Tensor2) (out_proj_bias : Option Tensor1)
    (kernel_function : KernelFn) (attn_mask_value : ℚ)
    (attention_function : AttentionFn) (attn_masking_function : MaskingFn)
    (query_key_product : ProductFn) :
    Except (List Event × MhaError) CoreOut :=
  let is_batched := input.isBatched
  let query := input.query3
  let key := input.key3
  let value := input.value3
  let key_padding_mask := input.kpm2
  let tgt_len := query.n0
  let bsz := query.n1
  let embed_dim := query.n2
  let src_len0 := key.n0
  if embed_dim = embed_dim_to_check then
    let head_dim := embed_dim / num_heads
    if head_dim * num_heads = embed_dim then
      match kvShapeCheck use_separate_proj_weight key value with
      | .error e => .error ([], e)
      | .ok _ =>
        match inProjectionStage use_separate_proj_weight query key value
            in_proj_weight in_proj_bias q_proj_weight k_proj_weight
            v_proj_weight with
        | .error e => .error ([], e)
        | .ok (q0, k0, v0) =>
          match prepAttnMask attn_mask tgt_len src_len0 bsz num_heads with
          | .error e => .error ([.inProjection], e)
          | .ok am1 =>
            match biasKVStage bias_k bias_v static_k static_v bsz k0 v0 am1
                key_padding_mask with
            | .error e => .error ([.inProjection], e)
            | .ok (k1, v1, am2, kpm1) =>
              let q1 := (q0.view3 tgt_len (bsz * num_heads) head_dim).transpose01
              match staticKStage static_k k1 (bsz * num_heads) head_dim with
              | .error e => .error ([.inProjection], e)
              | .ok k2 =>
                match staticVStage static_v v1 (bsz * num_heads) head_dim with
                | .error e => .error ([.inProjection], e)
                | .ok v2 =>
                  let zstep := zeroAttnStage add_zero_attn (bsz * num_heads)
                    head_dim k2 v2 am2 kpm1
                  let k3 := zstep.1
                  let v3 := zstep.2.1
                  let am3 := zstep.2.2.1
                  let kpm2 := zstep.2.2.2
                  let src_len := k3.n1
                  match mergeKeyPaddingMask kpm2 am3 bsz num_heads src_len
                      attn_mask_value with
                  | .error e => .error ([.inProjection], e)
                  | .ok am4 =>
                    let fmask := finalizeMask am4 attn_mask_value
                    let dropout_p1 := if training then dropout_p else 0
                    let ares := attention_function q1 k3 v3 fmask dropout_p1
                      kernel_function attn_mask_value attn_masking_function
                      query_key_product
                    let attn_output :=
                      linear ((ares.1.transpose01).view3 tgt_len bsz embed_dim)
                        out_proj_weight out_proj_bias
                    .ok ⟨is_batched, tgt_len, bsz, embed_dim, src_len,
                         ares.2, attn_output⟩
    else .error ([], .headDimNotDivisible)
  else .error ([], .embedDimMismatch)

/-- The attention output: rank 3 for batched inputs, rank 2 after the
synthetic batch dimension is stripped for unbatched inputs. -/
inductive AttnOut where
  | t2 (t : Tensor2)
  | t3 (t : Tensor3)

/-- The returned attention weights: rank depends on batchedness and on
`average_attn_weights`. -/
inductive WeightsOut where
  | t2 (t : Tensor2)
  | t3 (t : Tensor3)
  | t4 (t : Tensor4)

/-- The pair returned by the engine. -/
structure MhaOutput where
  out : AttnOut
  weights : Option WeightsOut

/-- Tail of `_multi_head_attention_forward` (lines 612-627): reshape the raw
weights to `[bsz, H, L, S]`, optionally sum over heads and divide by the head
count, and strip the synthetic batch dimension for unbatched inputs. -/
def mhaTail (num_heads : ℕ) (need_weights average_attn_weights : Bool)
    (c : CoreOut) : MhaOutput :=
  if need_weights then
    let w4 := c.raw_weights.view4 c.bsz num_heads c.tgt_len c.src_len
    if average_attn_weights then
      let w3 := (w4.sumDim1).divScalar (num_heads : ℚ)
      if c.is_batched then ⟨.t3 c.attn_output, some (.t3 w3)⟩
      else ⟨.t2 c.attn_output.squeeze1, some (.t2 w3.squeeze0)⟩
    else
      if c.is_batched then ⟨.t3 c.attn_output, some (.t4 w4)⟩
      else ⟨.t2 c.attn_output.squeeze1, some (.t3 w4.squeeze0)⟩
  else
    if c.is_batched then ⟨.t3 c.attn_output, none⟩
    else ⟨.t2 c.attn_output.squeeze1, none⟩

/-- Model of `_multi_head_attention_forward` (lines 325-627). -/
def _multi_head_attention_forward (input : MhaInput)
    (embed_dim_to_check num_heads : ℕ)
    (in_proj_weight : Option Tensor2) (in_proj_bias : Option Tensor1)
    (bias_k bias_v : Option Tensor3) (add_zero_attn : Bool) (dropout_p : ℚ)
    (out_proj_weight : Tensor2) (out_proj_bias : Option Tensor1)
    (training : Bool) (need_weights : Bool) (attn_mask : Option AttnMaskIn)
    (use_separate_proj_weight : Bool)
    (q_proj_weight k_proj_weight v_proj_weight : Option Tensor2)
    (static_k static_v : Option Tensor3) (average_attn_weights : Bool)
    (kernel_function : KernelFn) (attn_mask_value : ℚ)
    (attention_function : AttentionFn) (attn_masking_function : MaskingFn)
    (query_key_product : ProductFn) :
    Except (List Event × MhaError) MhaOutput :=
  Except.map (mhaTail num_heads need_weights average_attn_weights)
    (mhaCore input embed_dim_to_check num_heads in_proj_weight in_proj_bias
      bias_k bias_v add_zero_attn dropout_p training attn_mask
      use_separate_proj_weight q_proj_weight k_proj_weight v_proj_weight
      static_k static_v out_proj_weight out_proj_bias kernel_function
      attn_mask_value attention_function attn_masking_function
      query_key_product)

/-! ### The adapter module -/

/-- Model of the `CustomizableMultiHead` module state: the configuration and
parameter tensors of `nn.MultiheadAttention` plus the four pluggable
functions and the mask fill value added by the subclass.  `Option` fields are
`none` exactly when the corresponding torch attribute is `None`. -/
structure CustomizableMultiHead where
  embed_dim : ℕ
  num_heads : ℕ
  dropout : ℚ
  batch_first : Bool
  add_zero_attn : Bool
  kdim : ℕ
  vdim : ℕ
  qkv_same_embed_dim : Bool
  in_proj_weight : Option Tensor2
  in_proj_bias : Option Tensor1
  q_proj_weight : Option Tensor2
  k_proj_weight : Option Tensor2
  v_proj_weight : Option Tensor2
  bias_k : Option Tensor3
  bias_v : Option Tensor3
  out_proj_weight : Tensor2
  out_proj_bias : Option Tensor1
  training : Bool
  kernel_function : KernelFn
  attn_mask_value : ℚ
  attention_function : AttentionFn
  attn_masking_function : MaskingFn
  query_key_product : ProductFn

/-- Transpose the first two input dimensions when the input is batched
(the `batch_first` adjustment of `forward`, line 260-261). -/
def MhaInput.transposeFirstTwo : MhaInput → MhaInput
  | .batched q k v kpm => .batched q.transpose01 k.transpose01 v.transpose01 kpm
  | .unbatched q k v kpm => .unbatched q k v kpm

/-- Transpose the first two dimensions of a batched attention output back
(line 319-320); a rank-2 (unbatched) output is left unchanged, matching the
`is_batched` guard. -/
def MhaOutput.transposeFirstTwo : MhaOutput → MhaOutput
  | ⟨.t3 o, w⟩ => ⟨.t3 o.transpose01, w⟩
  | ⟨.t2 o, w⟩ => ⟨.t2 o, w⟩

/-- Model of `CustomizableMultiHead.forward` (lines 247-322), with the error
trace retained. -/
def CustomizableMultiHead.forwardE (m : CustomizableMultiHead)
    (input : MhaInput) (need_weights : Bool) (attn_mask : Option AttnMaskIn)
    (average_attn_weights : Bool) :
    Except (List Event × MhaError) MhaOutput :=
  let input1 := if m.batch_first then input.transposeFirstTwo else input
  let res :=
    if m.qkv_same_embed_dim then
      _multi_head_attention_forward input1 m.embed_dim m.num_heads
        m.in_proj_weight m.in_proj_bias m.bias_k m.bias_v m.add_zero_attn
        m.dropout m.out_proj_weight m.out_proj_bias m.training need_weights
        attn_mask false none none none none none average_attn_weights
        m.kernel_function m.attn_mask_value m.attention_function
        m.attn_masking_function m.query_key_product
    else
      _multi_head_attention_forward input1 m.embed_dim m.num_heads
        m.in_proj_weight m.in_proj_bias m.bias_k m.bias_v m.add_zero_attn
        m.dropout m.out_proj_weight m.out_proj_bias m.training need_weights
        attn_mask true m.q_proj_weight m.k_proj_weight m.v_proj_weight
        none none average_attn_weights
        m.kernel_function m.attn_mask_value m.attention_function
        m.attn_masking_function m.query_key_product
  match res with
  | .ok out => .ok (if m.batch_first then out.transposeFirstTwo else out)
  | .error e => .error e

/-- Model of `CustomizableMultiHead.forward` with the error trace projected away. -/
def CustomizableMultiHead.forward (m : CustomizableMultiHead)
    (input : MhaInput) (need_weights : Bool) (attn_mask : Option AttnMaskIn)
    (average_attn_weights : Bool) : Except MhaError MhaOutput :=
  Except.mapError Prod.snd (m.forwardE input need_weights attn_mask average_attn_weights)

/-! ### The reference multi-head attention computation

The refinement claim compares the adapter in its default configuration
against the standard `torch.nn.MultiheadAttention` computation.  The
reference is written from the specification's step list (§4.1-§4.3): the
scaled dot-product with softmax and dropout is inlined where the adapter
dispatches through its pluggable functions. -/

/-- Reference scaled dot-product attention, following §4.1: scale the query
by `1 / sqrt(head_dim)`, multiply with the transposed key, add the mask when
present, row-normalize by softmax over the last dimension, apply dropout only
for positive dropout probability, multiply with the values. -/
def referenceScaledDotProductAttention (sqrtFn expFn : ℚ → ℚ)
    (dFn : DropoutFn) (q k v : Tensor3) (attn_mask : Option Tensor3)
    (dropout_p : ℚ) : Tensor3 × Tensor3 :=
  let attn := Tensor3.bmm (q.divScalar (sqrtFn (q.n2 : ℚ))) k.transpose12
  let attn := match attn_mask with
    | some m => attn.addInto m
    | none => attn
  let attn := softmaxLastDim expFn attn
  let attn := if dropout_p > 0 then dFn dropout_p attn else attn
  (attn.bmm v, attn)

/-- Reference execution-engine body, following the ordered step list of
§4.2: shape validation, in-projection, mask preparation, bias-key/value
injection, multi-head reshape, zero-attention padding, key-padding-mask
merge, mask finalization, dropout gating, attention, output reassembly. -/
def referenceCore (sqrtFn expFn : ℚ → ℚ) (dFn : DropoutFn) (input : MhaInput)
    (embed_dim_to_check num_heads : ℕ)
    (in_proj_weight : Option Tensor2) (in_proj_bias : Option Tensor1)
    (bias_k bias_v : Option Tensor3) (add_zero_attn : Bool) (dropout_p : ℚ)
    (training : Bool) (attn_mask : Option AttnMaskIn)
    (use_separate_proj_weight : Bool)
    (q_proj_weight k_proj_weight v_proj_weight : Option Tensor2)
    (static_k static_v : Option Tensor3)
    (out_proj_weight : Tensor2) (out_proj_bias : Option Tensor1)
    (mask_fill_value : ℚ) : Except MhaError CoreOut :=
  let is_batched := input.isBatched
  let query := input.query3
  let key := input.key3
  let value := input.value3
  let key_padding_mask := input.kpm2
  let tgt_len := query.n0
  let bsz := query.n1
  let embed_dim := query.n2
  let src_len0 := key.n0
  if embed_dim = embed_dim_to_check then
    let head_dim := embed_dim / num_heads
    if head_dim * num_heads = embed_dim then
      match kvShapeCheck use_separate_proj_weight key value with
      | .error e => .error e
      | .ok _ =>
        match inProjectionStage use_separate_proj_weight query key value
            in_proj_weight in_proj_bias q_proj_weight k_proj_weight
            v_proj_weight with
        | .error e => .error e
        | .ok (q0, k0, v0) =>
          match prepAttnMask attn_mask tgt_len src_len0 bsz num_heads with
          | .error e => .error e
          | .ok am1 =>
            match biasKVStage bias_k bias_v static_k static_v bsz k0 v0 am1
                key_padding_mask with
            | .error e => .error e
            | .ok (k1, v1, am2, kpm1) =>
              let q1 := (q0.view3 tgt_len (bsz * num_heads) head_dim).transpose01
              match staticKStage static_k k1 (bsz * num_heads) head_dim with
              | .error e => .error e
              | .ok k2 =>
                match staticVStage static_v v1 (bsz * num_heads) head_dim with
                | .error e => .error e
                | .ok v2 =>
                  let zstep := zeroAttnStage add_zero_attn (bsz * num_heads)
                    head_dim k2 v2 am2 kpm1
                  let k3 := zstep.1
                  let v3 := zstep.2.1
                  let am3 := zstep.2.2.1
                  let kpm2 := zstep.2.2.2
                  let src_len := k3.n1
                  match mergeKeyPaddingMask kpm2 am3 bsz num_heads src_len
                      mask_fill_value with
                  | .error e => .error e
                  | .ok am4 =>
                    let fmask := finalizeMask am4 mask_fill_value
                    let dropout_p1 := if training then dropout_p else 0
                    let ares := referenceScaledDotProductAttention sqrtFn expFn
                      dFn q1 k3 v3 fmask dropout_p1
                    let attn_output :=
                      linear ((ares.1.transpose01).view3 tgt_len bsz embed_dim)
                        out_proj_weight out_proj_bias
                    .ok ⟨is_batched, tgt_len, bsz, embed_dim, src_len,
                         ares.2, attn_output⟩
    else .error .headDimNotDivisible
  else .error .embedDimMismatch

/-- Reference weight-reduction tail, following §4.2 step 12. -/
def referenceTail (num_heads : ℕ) (need_weights average_attn_weights : Bool)
    (c : CoreOut) : MhaOutput :=
  if need_weights then
    let w4 := c.raw_weights.view4 c.bsz num_heads c.tgt_len c.src_len
    if average_attn_weights then
      let w3 := (w4.sumDim1).divScalar (num_heads : ℚ)
      if c.is_batched then ⟨.t3 c.attn_output, some (.t3 w3)⟩
      else ⟨.t2 c.attn_output.squeeze1, some (.t2 w3.squeeze0)⟩
    else
      if c.is_batched then ⟨.t3 c.attn_output, some (.t4 w4)⟩
      else ⟨.t2 c.attn_output.squeeze1, some (.t3 w4.squeeze0)⟩
  else
    if c.is_batched then ⟨.t3 c.attn_output, none⟩
    else ⟨.t2 c.attn_output.squeeze1, none⟩

/-- Reference `multi_head_attention_forward`. -/
def referenceMultiHeadAttentionForward (sqrtFn expFn : ℚ → ℚ)
    (dFn : DropoutFn) (input : MhaInput) (embed_dim_to_check num_heads : ℕ)
    (in_proj_weight : Option Tensor2) (in_proj_bias : Option Tensor1)
    (bias_k bias_v : Option Tensor3) (add_zero_attn : Bool) (dropout_p : ℚ)
    (out_proj_weight : Tensor2) (out_proj_bias : Option Tensor1)
    (training : Bool) (need_weights : Bool) (attn_mask : Option AttnMaskIn)
    (use_separate_proj_weight : Bool)
    (q_proj_weight k_proj_weight v_proj_weight : Option Tensor2)
    (static_k static_v : Option Tensor3) (average_attn_weights : Bool)
    (mask_fill_value : ℚ) : Except MhaError MhaOutput :=
  Except.map (referenceTail num_heads need_weights average_attn_weights)
    (referenceCore sqrtFn expFn dFn input embed_dim_to_check num_heads
      in_proj_weight in_proj_bias bias_k bias_v add_zero_attn dropout_p
      training attn_mask use_separate_proj_weight q_proj_weight k_proj_weight
      v_proj_weight static_k static_v out_proj_weight out_proj_bias
      mask_fill_value)

/-- Model of a plain `torch.nn.MultiheadAttention` layer: the same
configuration and parameters as the adapter, without pluggable functions. -/
structure MultiheadAttention where
  embed_dim : ℕ
  num_heads : ℕ
  dropout : ℚ
  batch_first : Bool
  add_zero_attn : Bool
  kdim : ℕ
  vdim : ℕ
  in_proj_weight : Option Tensor2
  in_proj_bias : Option Tensor1
  q_proj_weight : Option Tensor2
  k_proj_weight : Option Tensor2
  v_proj_weight : Option Tensor2
  bias_k : Option Tensor3
  bias_v : Option Tensor3
  out_proj_weight : Tensor2
  out_proj_bias : Option Tensor1
  training : Bool

/-- The `_qkv_same_embed_dim` flag of a reference layer. -/
def MultiheadAttention.qkv_same_embed_dim (l : MultiheadAttention) : Bool :=
  decide (l.kdim = l.embed_dim ∧ l.vdim = l.embed_dim)

/-- Reference `nn.MultiheadAttention.forward`, following §4.3: batch-first
transposition, engine delegation (separate projection weights when the
key/value dimensions differ from the embedding dimension), transposition of
the batched output. -/
def MultiheadAttention.reference_forward (l : MultiheadAttention)
    (sqrtFn expFn : ℚ → ℚ) (dFn : DropoutFn) (mask_fill_value : ℚ)
    (input : MhaInput) (need_weights : Bool) (attn_mask : Option AttnMaskIn)
    (average_attn_weights : Bool) : Except MhaError MhaOutput :=
  let input1 := if l.batch_first then input.transposeFirstTwo else input
  let res :=
    if l.qkv_same_embed_dim then
      referenceMultiHeadAttentionForward sqrtFn expFn dFn input1 l.embed_dim
        l.num_heads l.in_proj_weight l.in_proj_bias l.bias_k l.bias_v
        l.add_zero_attn l.dropout l.out_proj_weight l.out_proj_bias
        l.training need_weights attn_mask false none none none none none
        average_attn_weights mask_fill_value
    else
      referenceMultiHeadAttentionForward sqrtFn expFn dFn input1 l.embed_dim
        l.num_heads l.in_proj_weight l.in_proj_bias l.bias_k l.bias_v
        l.add_zero_attn l.dropout l.out_proj_weight l.out_proj_bias
        l.training need_weights attn_mask true l.q_proj_weight
        l.k_proj_weight l.v_proj_weight none none average_attn_weights
        mask_fill_value
  match res with
  | .ok out => .ok (if l.batch_first then out.transposeFirstTwo else out)
  | .error e => .error e

/-- Shape accessor of a rank-2 mask. -/
def MaskData2.d0 : MaskData2 → ℕ
  | .boolMask m => m.n0
  | .floatMask m => m.n0

/-- Shape accessor of a rank-2 mask. -/
def MaskData2.d1 : MaskData2 → ℕ
  | .boolMask m => m.n1
  | .floatMask m => m.n1

/-- Externally toggled training/evaluation mode of a reference layer
(`module.train()` / `module.eval()`). -/
def MultiheadAttention.setTraining (l : MultiheadAttention) (t : Bool) :
    MultiheadAttention :=
  ⟨l.embed_dim, l.num_heads, l.dropout, l.batch_first, l.add_zero_attn,
   l.kdim, l.vdim, l.in_proj_weight, l.in_proj_bias, l.q_proj_weight,
   l.k_proj_weight, l.v_proj_weight, l.bias_k, l.bias_v, l.out_proj_weight,
   l.out_proj_bias, t⟩

/-- Externally toggled training/evaluation mode of the adapter. -/
def CustomizableMultiHead.setTraining (m : CustomizableMultiHead) (t : Bool) :
    CustomizableMultiHead :=
  ⟨m.embed_dim, m.num_heads, m.dropout, m.batch_first, m.add_zero_attn,
   m.kdim, m.vdim, m.qkv_same_embed_dim, m.in_proj_weight, m.in_proj_bias,
   m.q_proj_weight, m.k_proj_weight, m.v_proj_weight, m.bias_k, m.bias_v,
   m.out_proj_weight, m.out_proj_bias, t, m.kernel_function,
   m.attn_mask_value, m.attention_function, m.attn_masking_function,
   m.query_key_product⟩

/-- The adapter state obtained by pairing a reference layer's configuration
and weights with the default pluggable functions (softmax kernel, additive
masking, scaled dot product, scaled dot-product attention). -/
def mkDefaultAdapter (sqrtFn expFn : ℚ → ℚ) (dFn : DropoutFn)
    (mask_fill_value : ℚ) (l : MultiheadAttention) : CustomizableMultiHead :=
  ⟨l.embed_dim, l.num_heads, l.dropout, l.batch_first, l.add_zero_attn,
   l.kdim, l.vdim, l.qkv_same_embed_dim, l.in_proj_weight, l.in_proj_bias,
   l.q_proj_weight, l.k_proj_weight, l.v_proj_weight, l.bias_k, l.bias_v,
   l.out_proj_weight, l.out_proj_bias, l.training,
   softmaxLastDim expFn, mask_fill_value, _scaled_dot_product_attention dFn,
   _attn_masking, _scaled_dot_product sqrtFn⟩

/-- With the default pluggable functions the engine body coincides with the
reference engine body, error for error and output for output. -/
theorem core_default_refines_reference (sqrtFn expFn : ℚ → ℚ)
    (dFn : DropoutFn) (input : MhaInput) (e h : ℕ)
    (ipw : Option Tensor2) (ipb : Option Tensor1)
    (bk bv : Option Tensor3) (za : Bool) (dp : ℚ) (tr : Bool)
    (am : Option AttnMaskIn) (sep : Bool)
    (qw kw vw : Option Tensor2) (sk sv : Option Tensor3)
    (opw : Tensor2) (opb : Option Tensor1) (v : ℚ) :
    Except.mapError Prod.snd
      (mhaCore input e h ipw ipb bk bv za dp tr am sep qw kw vw sk sv
        opw opb (softmaxLastDim expFn) v
        (_scaled_dot_product_attention dFn) _attn_masking
        (_scaled_dot_product sqrtFn))
      = referenceCore sqrtFn expFn dFn input e h ipw ipb bk bv za dp tr
          am sep qw kw vw sk sv opw opb v := by
  unfold mhaCore referenceCore
  simp only []
  by_cases h1 : input.query3.n2 = e
  · simp only [if_pos h1]
    by_cases h2 : input.query3.n2 / h * h = input.query3.n2
    · simp only [if_pos h2]
      cases hkv : kvShapeCheck sep input.key3 input.value3 with
      | error err => rfl
      | ok u =>
        simp only []
        cases hproj : inProjectionStage sep input.query3 input.key3
            input.value3 ipw ipb qw kw vw with
        | error err => rfl
        | ok qkv =>
          obtain ⟨q0, k0, v0⟩ := qkv
          simp only []
          cases hmask : prepAttnMask am input.query3.n0 input.key3.n0
              input.query3.n1 h with
          | error err => rfl
          | ok am1 =>
            simp only []
            cases hbias : biasKVStage bk bv sk sv input.query3.n1
                k0 v0 am1 input.kpm2 with
            | error err => rfl
            | ok kvm =>
              obtain ⟨k1, v1, am2, kpm1⟩ := kvm
              simp only []
              cases hks : staticKStage sk k1
                  (input.query3.n1 * h) (input.query3.n2 / h) with
              | error err => rfl
              | ok k2 =>
                simp only []
                cases hvs : staticVStage sv v1
                    (input.query3.n1 * h) (input.query3.n2 / h) with
                | error err => rfl
                | ok v2 =>
                  simp only []
                  cases hmg : mergeKeyPaddingMask
                      (zeroAttnStage za (input.query3.n1 * h)
                        (input.query3.n2 / h) k2 v2 am2 kpm1).2.2.2
                      (zeroAttnStage za (input.query3.n1 * h)
                        (input.query3.n2 / h) k2 v2 am2 kpm1).2.2.1
                      input.query3.n1 h
                      (zeroAttnStage za (input.query3.n1 * h)
                        (input.query3.n2 / h) k2 v2 am2 kpm1).1.n1
                      v with
                  | error err => rfl
                  | ok am4 => rfl
    · simp only [if_neg h2]
      rfl
  · simp only [if_neg h1]
    rfl

/-- With the default pluggable functions the full engine coincides with the
reference `multi_head_attention_forward`. -/
theorem mha_forward_default_refines_reference (sqrtFn expFn : ℚ → ℚ)
    (dFn : DropoutFn) (input : MhaInput) (e h : ℕ)
    (ipw : Option Tensor2) (ipb : Option Tensor1)
    (bk bv : Option Tensor3) (za : Bool) (dp : ℚ)
    (opw : Tensor2) (opb : Option Tensor1) (tr nw : Bool)
    (am : Option AttnMaskIn) (sep : Bool)
    (qw kw vw : Option Tensor2) (sk sv : Option Tensor3) (avg : Bool)
    (v : ℚ) :
    Except.mapError Prod.snd
      (_multi_head_attention_forward input e h ipw ipb bk bv za dp opw opb
        tr nw am sep qw kw vw sk sv avg (softmaxLastDim expFn) v
        (_scaled_dot_product_attention dFn) _attn_masking
        (_scaled_dot_product sqrtFn))
      = referenceMultiHeadAttentionForward sqrtFn expFn dFn input e h ipw
          ipb bk bv za dp opw opb tr nw am sep qw kw vw sk sv avg v := by
  unfold _multi_head_attention_forward referenceMultiHeadAttentionForward
  rw [← core_default_refines_reference sqrtFn expFn dFn input e h ipw ipb
    bk bv za dp tr am sep qw kw vw sk sv opw opb v]
  cases mhaCore input e h ipw ipb bk bv za dp tr am sep qw kw vw sk sv
    opw opb (softmaxLastDim expFn) v
    (_scaled_dot_product_attention dFn) _attn_masking
    (_scaled_dot_product sqrtFn) <;> rfl

/-- With the default pluggable functions the adapter forward coincides with
the reference layer forward. -/
theorem adapter_forward_default_refines_reference (sqrtFn expFn : ℚ → ℚ)
    (dFn : DropoutFn) (mask_fill_value : ℚ) (l : MultiheadAttention)
    (input : MhaInput) (nw : Bool) (am : Option AttnMaskIn) (avg : Bool) :
    (mkDefaultAdapter sqrtFn expFn dFn mask_fill_value l).forward input nw
        am avg
      = l.reference_forward sqrtFn expFn dFn mask_fill_value input nw am
          avg := by
  unfold CustomizableMultiHead.forward CustomizableMultiHead.forwardE
    MultiheadAttention.reference_forward mkDefaultAdapter
  simp only []
  cases hq : l.qkv_same_embed_dim with
  | true =>
      simp only [if_pos rfl]
      rw [← mha_forward_default_refines_reference sqrtFn expFn dFn
        (if l.batch_first then input.transposeFirstTwo else input)
        l.embed_dim l.num_heads l.in_proj_weight l.in_proj_bias l.bias_k
        l.bias_v l.add_zero_attn l.dropout l.out_proj_weight l.out_proj_bias
        l.training nw am false none none none none none avg mask_fill_value]
      cases _multi_head_attention_forward
        (if l.batch_first then input.transposeFirstTwo else input)
        l.embed_dim l.num_heads l.in_proj_weight l.in_proj_bias l.bias_k
        l.bias_v l.add_zero_attn l.dropout l.out_proj_weight l.out_proj_bias
        l.training nw am false none none none none none avg
        (softmaxLastDim expFn) mask_fill_value
        (_scaled_dot_product_attention dFn) _attn_masking
        (_scaled_dot_product sqrtFn) <;> rfl
  | false =>
      simp only [Bool.false_eq_true, if_neg, if_false]
      rw [← mha_forward_default_refines_reference sqrtFn expFn dFn
        (if l.batch_first then input.transposeFirstTwo else input)
        l.embed_dim l.num_heads l.in_proj_weight l.in_proj_bias l.bias_k
        l.bias_v l.add_zero_attn l.dropout l.out_proj_weight l.out_proj_bias
        l.training nw am true l.q_proj_weight l.k_proj_weight
        l.v_proj_weight none none avg mask_fill_value]
      cases _multi_head_attention_forward
        (if l.batch_first then input.transposeFirstTwo else input)
        l.embed_dim l.num_heads l.in_proj_weight l.in_proj_bias l.bias_k
        l.bias_v l.add_zero_attn l.dropout l.out_proj_weight l.out_proj_bias
        l.training nw am true l.q_proj_weight l.k_proj_weight
        l.v_proj_weight none none avg
        (softmaxLastDim expFn) mask_fill_value
        (_scaled_dot_product_attention dFn) _attn_masking
        (_scaled_dot_product sqrtFn) <;> rfl

/-! ### The approximator -/

/-- The freshly initialized parameter tensors a `CustomizableMultiHead`
constructor creates (the random initialization the framework performs); kept
abstract because extraction overwrites them. -/
structure InitWeights where
  in_proj_weight : Tensor2
  in_proj_bias : Tensor1
  q_proj_weight : Tensor2
  k_proj_weight : Tensor2
  v_proj_weight : Tensor2
  bias_k : Tensor3
  bias_v : Tensor3
  out_proj_weight : Tensor2
  out_proj_bias : Tensor1

/-- The persistent `parameters` dictionary of the approximator, restricted to
the nine configuration keys `get_trainable_approximation` reads and writes;
`none` models an absent key. -/
structure ApproxParams where
  embed_dim : Option ℕ
  num_heads : Option ℕ
  batch_first : Option Bool
  dropout : Option ℚ
  bias : Option Bool
  add_bias_kv : Option Bool
  add_zero_attn : Option Bool
  kdim : Option ℕ
  vdim : Option ℕ

/-- The empty parameters dictionary (`parameters = {}`). -/
def emptyParams : ApproxParams :=
  ⟨none, none, none, none, none, none, none, none, none⟩

/-- Model of the `CustomizableMultiHead` constructor (lines 198-245): the
configuration decides which parameter tensors exist; fresh tensors come from
`init`; the pluggable-function arguments keep their Python defaults. -/
def CustomizableMultiHead.construct (sqrtFn expFn : ℚ → ℚ) (dFn : DropoutFn)
    (mask_fill_value : ℚ) (embed_dim num_heads : ℕ) (dropout : ℚ)
    (bias add_bias_kv add_zero_attn : Bool) (kdim vdim : ℕ)
    (batch_first : Bool) (init : InitWeights) : CustomizableMultiHead :=
  let qkv_same := decide (kdim = embed_dim ∧ vdim = embed_dim)
  ⟨embed_dim, num_heads, dropout, batch_first, add_zero_attn, kdim, vdim,
   qkv_same,
   if qkv_same then some init.in_proj_weight else none,
   if bias then some init.in_proj_bias else none,
   if qkv_same then none else some init.q_proj_weight,
   if qkv_same then none else some init.k_proj_weight,
   if qkv_same then none else some init.v_proj_weight,
   if add_bias_kv then some init.bias_k else none,
   if add_bias_kv then some init.bias_v else none,
   init.out_proj_weight,
   if bias then some init.out_proj_bias else none,
   true,
   softmaxLastDim expFn, mask_fill_value, _scaled_dot_product_attention dFn,
   _attn_masking, _scaled_dot_product sqrtFn⟩

/-- Named-parameter copy: a parameter present on the source layer replaces
the destination attribute (`setattr`), an absent one leaves the fresh
attribute in place. -/
def overrideOpt {α : Type} (src dst : Option α) : Option α :=
  match src with
  | some w => some w
  | none => dst

/-- Model of `CustomizableMultiHeadApproximator.get_trainable_approximation`
(lines 63-109): every configuration key not already present in the
persistent `parameters` dictionary is written from the source layer, a new
`CustomizableMultiHead` is built from the resulting configuration, and every
named parameter of the source layer is copied onto it by name
correspondence.  Returns the updated dictionary and the new module. -/
def get_trainable_approximation (sqrtFn expFn : ℚ → ℚ) (dFn : DropoutFn)
    (mask_fill_value : ℚ) (p : ApproxParams) (l : MultiheadAttention)
    (init : InitWeights) : ApproxParams × CustomizableMultiHead :=
  let p1 : ApproxParams :=
    ⟨some (p.embed_dim.getD l.embed_dim),
     some (p.num_heads.getD l.num_heads),
     some (p.batch_first.getD l.batch_first),
     some (p.dropout.getD l.dropout),
     some (p.bias.getD l.in_proj_bias.isSome),
     some (p.add_bias_kv.getD l.bias_k.isSome),
     some (p.add_zero_attn.getD l.add_zero_attn),
     some (p.kdim.getD l.kdim),
     some (p.vdim.getD l.vdim)⟩
  let m0 := CustomizableMultiHead.construct sqrtFn expFn dFn mask_fill_value
    (p1.embed_dim.getD 0) (p1.num_heads.getD 0) (p1.dropout.getD 0)
    (p1.bias.getD true) (p1.add_bias_kv.getD false)
    (p1.add_zero_attn.getD false) (p1.kdim.getD 0) (p1.vdim.getD 0)
    (p1.batch_first.getD false) init
  let m1 : CustomizableMultiHead :=
    ⟨m0.embed_dim, m0.num_heads, m0.dropout, m0.batch_first,
     m0.add_zero_attn, m0.kdim, m0.vdim, m0.qkv_same_embed_dim,
     overrideOpt l.in_proj_weight m0.in_proj_weight,
     overrideOpt l.in_proj_bias m0.in_proj_bias,
     overrideOpt l.q_proj_weight m0.q_proj_weight,
     overrideOpt l.k_proj_weight m0.k_proj_weight,
     overrideOpt l.v_proj_weight m0.v_proj_weight,
     overrideOpt l.bias_k m0.bias_k,
     overrideOpt l.bias_v m0.bias_v,
     l.out_proj_weight,
     overrideOpt l.out_proj_bias m0.out_proj_bias,
     m0.training, m0.kernel_function, m0.attn_mask_value,
     m0.attention_function, m0.attn_masking_function, m0.query_key_product⟩
  (p1, m1)

/-- The module universe `get_pretrained_approximation` can receive: a
`CustomizableMultiHead` adapter, a plain attention layer, or any other
module. -/
inductive AnyModule where
  | customizable (m : CustomizableMultiHead)
  | multihead (l : MultiheadAttention)
  | other

/-- The `isinstance(module, CustomizableMultiHead)` test. -/
def AnyModule.isCustomizable : AnyModule → Bool
  | .customizable _ => true
  | .multihead _ => false
  | .other => false

/-- Model of `CustomizableMultiHeadApproximator.get_pretrained_approximation`
(lines 111-127): identity on adapter instances, an error on anything else. -/
def get_pretrained_approximation (module : AnyModule) :
    Except MhaError AnyModule :=
  match module with
  | .customizable m => .ok (.customizable m)
  | _ => .error .notCustomizableModule

/-! ### Object-level model of `_attn_masking`

`_attn_masking` mutates its argument in place (`attn += attn_mask`) and
returns the very same object.  To state this, tensors live in a heap indexed
by ℕ and the function manipulates references. -/

/-- A heap of rank-3 tensors. -/
def Heap : Type := ℕ → Tensor3

/-- Heap update at one reference. -/
def Heap.set (h : Heap) (r : ℕ) (t : Tensor3) : Heap :=
  fun i => if i = r then t else h i

/-- Object-level model of `_attn_masking` (lines 147-161): when a mask is
present, the tensor behind the `attn` reference is updated in place by the
broadcast addition `attn += attn_mask`, and the `attn` reference itself is
returned; when the mask is absent nothing happens and the same reference is
returned.  The `attn_mask_value` argument is never read. -/
def attnMaskingObj (h : Heap) (attn : ℕ) (attn_mask : Option ℕ)
    (attn_mask_value : ℚ) : Heap × ℕ :=
  match attn_mask with
  | some m => (h.set attn ((h attn).addInto (h m)), attn)
  | none => (h, attn)

/-! ### Helpers for stating the weight-reduction and mask-merge claims -/

/-- Placeholder core output used to totalize `coreResultOf`. -/
def defaultCoreOut : CoreOut :=
  ⟨false, 0, 0, 0, 0, Tensor3.zeros 0 0 0, Tensor3.zeros 0 0 0⟩

/-- The core output of a successful engine run (the placeholder on an
error). -/
def coreResultOf (x : Except (List Event × MhaError) CoreOut) : CoreOut :=
  match x with
  | .ok c => c
  | .error _ => defaultCoreOut

/-! ### Index arithmetic for contiguous views -/

/-- Dividing a flattened index by the trailing extent recovers the leading
part. -/
theorem flatPair_div (g s S : ℕ) (hs : s < S) : (g * S + s) / S = g := by
  have hpos : 0 < S := Nat.lt_of_le_of_lt (Nat.zero_le s) hs
  rw [Nat.add_comm, Nat.mul_comm, Nat.add_mul_div_left _ _ hpos,
    Nat.div_eq_of_lt hs, Nat.zero_add]

/-- Taking a flattened index modulo the trailing extent recovers the
trailing part. -/
theorem flatPair_mod (g s S : ℕ) (hs : s < S) : (g * S + s) % S = s := by
  rw [Nat.add_comm, Nat.mul_comm, Nat.add_mul_mod_self_left,
    Nat.mod_eq_of_lt hs]

/-- A two-coordinate offset is below the product of the extents. -/
theorem twoCoord_lt (i j L S : ℕ) (hi : i < L) (hj : j < S) :
    i * S + j < L * S := by
  calc i * S + j < i * S + S := by omega
  _ = (i + 1) * S := by ring
  _ ≤ L * S := Nat.mul_le_mul_right S hi

/-- Entry characterization of the `[bsz*H, L, S] -> [bsz, H, L, S]` weight
view (line 614): entry `(b, h, i, j)` of the view is entry `(b*H + h, i, j)`
of the flat weight tensor. -/
theorem view4_ent_eq (t : Tensor3) (B H L S b h i j : ℕ)
    (hL : t.n1 = L) (hS : t.n2 = S) (hi : i < L) (hj : j < S) :
    (t.view4 B H L S).ent b h i j = t.ent (b * H + h) i j := by
  show t.flat (((b * H + h) * L + i) * S + j) = t.ent (b * H + h) i j
  unfold Tensor3.flat
  rw [hL, hS]
  have h1 : ((b * H + h) * L + i) * S + j = (b * H + h) * (L * S) + (i * S + j) := by
    ring
  have h2 : (((b * H + h) * L + i) * S + j) / (L * S) = b * H + h := by
    rw [h1, flatPair_div _ _ _ (twoCoord_lt i j L S hi hj)]
  have h3 : (((b * H + h) * L + i) * S + j) / S = (b * H + h) * L + i :=
    flatPair_div _ _ _ hj
  have h4 : (((b * H + h) * L + i) * S + j) % S = j := flatPair_mod _ _ _ hj
  have h5 : ((b * H + h) * L + i) % L = i := by
    rw [Nat.mul_comm, Nat.mul_add_mod, Nat.mod_eq_of_lt hi]
  rw [h2, h3, h4, h5]

/-- Entry characterization of the key-padding-mask expansion
`view(bsz,1,1,src).expand(-1,H,-1,-1).reshape(bsz*H,1,src)` (lines 573-577):
entry `(g, 0, s)` of the expansion is entry `(g / H, s)` of the original
`[bsz, src]` mask. -/
theorem expandKeyPaddingMask_ent (kp : BTensor2) (bsz H src g s : ℕ)
    (hn1 : kp.n1 = src) (hH : 0 < H) (hs : s < src) :
    (expandKeyPaddingMask kp bsz H src).ent g 0 s = kp.ent (g / H) s := by
  show ((kp.view4 bsz 1 1 src).expandDim1 H).flat ((g * 1 + 0) * src + s)
      = kp.ent (g / H) s
  unfold BTensor4.flat BTensor4.expandDim1 BTensor2.view4 BTensor2.flat
  simp only []
  have hf : (g * 1 + 0) * src + s = g * src + s := by ring_nf
  have hdecomp : g * src + s = (g / H) * (H * src) + ((g % H) * src + s) := by
    calc g * src + s = (H * (g / H) + g % H) * src + s := by
          rw [Nat.div_add_mod]
    _ = (g / H) * (H * src) + ((g % H) * src + s) := by ring
  have hlt : (g % H) * src + s < H * src :=
    twoCoord_lt _ _ _ _ (Nat.mod_lt g hH) hs
  have e1 : ((g * 1 + 0) * src + s) / (H * 1 * src) = g / H := by
    rw [hf, hdecomp]
    have : H * 1 * src = H * src := by ring
    rw [this, flatPair_div _ _ _ hlt]
  have e2 : ((g * 1 + 0) * src + s) / (1 * src) % H = g % H := by
    rw [hf, Nat.one_mul, flatPair_div g s src hs]
  have e3 : ((g * 1 + 0) * src + s) / src % 1 = 0 := Nat.mod_one _
  have e4 : ((g * 1 + 0) * src + s) % src = s := by
    rw [hf, flatPair_mod g s src hs]
  rw [e1, e2, e3, e4]
  show kp.flat (((g / H * 1 + bIdx 1 (g % H)) * 1 + 0) * src + s) = _
  have hb : bIdx 1 (g % H) = 0 := rfl
  rw [hb]
  unfold BTensor2.flat
  have hf2 : ((g / H * 1 + 0) * 1 + 0) * src + s = (g / H) * src + s := by ring_nf
  rw [hf2, hn1, flatPair_div _ _ _ hs, flatPair_mod _ _ _ hs]

/-! ### Claim theorems -/

/-- C1: for every fixed set of weights (the configuration and parameter
tensors of a reference attention layer) and every input — batched 3-D or
unbatched 2-D, with or without masks — the adapter's forward with the
default pluggable functions (softmax over the last dimension, additive
masking, scaled query-key product, scaled dot-product attention) returns
exactly the output and attention weights of the reference
`nn.MultiheadAttention` computation (exact equality of the rational-valued
semantics, the formal counterpart of floating-tolerance equivalence). -/
theorem claim_C1_default_adapter_equals_reference (sqrtFn expFn : ℚ → ℚ)
    (dFn : DropoutFn) (mask_fill_value : ℚ) (l : MultiheadAttention)
    (input : MhaInput) (nw : Bool) (am : Option AttnMaskIn) (avg : Bool) :
    (mkDefaultAdapter sqrtFn expFn dFn mask_fill_value l).forward input nw
        am avg
      = l.reference_forward sqrtFn expFn dFn mask_fill_value input nw am
          avg :=
  adapter_forward_default_refines_reference sqrtFn expFn dFn mask_fill_value
    l input nw am avg

/-! ### Concrete scenario data (shared by witnesses and counterexamples) -/

/-- Identity matrix. -/
def cxIdW (n : ℕ) : Tensor2 := ⟨n, n, fun i j => if i = j then 1 else 0⟩

/-- Packed in-projection weight `[24, 8]`: three stacked identities. -/
def cxPackedW : Tensor2 := ⟨24, 8, fun i j => if i % 8 = j then 1 else 0⟩

/-- Concrete `[3, 1, 8]` query/key/value tensor. -/
def cxQuery : Tensor3 := ⟨3, 1, 8, fun i _ k => (i : ℚ) + (k : ℚ) / 10⟩

/-- A 2-D boolean attention mask of shape `[4, 3]` — the wrong target length
for `tgt_len = 3`, `src_len = 3`. -/
def cxBadMask : AttnMaskIn := .rank2 (.boolMask ⟨4, 3, fun _ _ => false⟩)

/-- Constant stand-in for the exponential in concrete runs (softmax then
yields exact uniform rows). -/
def cxExp : ℚ → ℚ := fun _ => 1

/-- Identity stand-in for the square root in concrete runs. -/
def cxSqrt : ℚ → ℚ := fun x => x

/-- Identity dropout kernel (the draw in which nothing is zeroed). -/
def cxDrop : DropoutFn := fun _ t => t

/-- Dropout kernel draw that zeroes every entry. -/
def cxDropZero : DropoutFn := fun _ t => Tensor3.zeros t.n0 t.n1 t.n2

/-- A 2-D attention mask of the wrong shape makes `prepAttnMask` fail with
the 2-D shape error, for either dtype. -/
theorem prepAttnMask_rank2_wrongShape (m2 : MaskData2) (t s b hh : ℕ)
    (hbad : ¬(m2.d0 = t ∧ m2.d1 = s)) :
    prepAttnMask (some (.rank2 m2)) t s b hh = .error .attnMask2DShape := by
  cases m2 with
  | boolMask m => exact if_neg (by simpa [MaskData2.d0, MaskData2.d1] using hbad)
  | floatMask m => exact if_neg (by simpa [MaskData2.d0, MaskData2.d1] using hbad)

/-- C3 counterexample: on the spec §8 scenario (packed weights, batched
`[3, 1, 8]` input) with a 2-D mask of shape `[4, 3]`, the engine does raise
the 2-D-mask shape error, but its recorded pre-error trace is
`[inProjection]`, not `[]`: the in-projection tensor computation executes
before the mask-shape validation fires, contradicting the claim that the
error precedes any tensor operation. -/
theorem claim_C3_counterexample :
    _multi_head_attention_forward (.batched cxQuery cxQuery cxQuery none) 8 2
        (some cxPackedW) none none none false 0 (cxIdW 8) none false true
        (some cxBadMask) false none none none none none true
        (softmaxLastDim cxExp) (-1) (_scaled_dot_product_attention cxDrop)
        _attn_masking (_scaled_dot_product cxSqrt)
      = .error ([Event.inProjection], MhaError.attnMask2DShape)
    ∧ ([Event.inProjection] : List Event) ≠ [] :=
  ⟨rfl, by decide⟩

/-- C3 (amended): on every forward call whose 2-D attention mask has a shape
other than `[tgt_len, src_len]` and that passes the earlier embed-dim,
divisibility, key/value-shape and projection-weight validations, the engine
raises the 2-D-mask shape error during mask preparation — after the
in-projection has executed (trace `[inProjection]`) and before any further
tensor computation. -/
theorem claim_C3_amended_mask_error_after_in_projection (input : MhaInput)
    (e h : ℕ) (ipw : Option Tensor2) (ipb : Option Tensor1)
    (bk bv : Option Tensor3) (za : Bool) (dp : ℚ) (opw : Tensor2)
    (opb : Option Tensor1) (tr nw : Bool) (sep : Bool)
    (qw kw vw : Option Tensor2) (sk sv : Option Tensor3) (avg : Bool)
    (kf : KernelFn) (v : ℚ) (af : AttentionFn) (mf : MaskingFn)
    (pf : ProductFn) (m2 : MaskData2)
    (h1 : input.query3.n2 = e)
    (h2 : input.query3.n2 / h * h = input.query3.n2)
    (hkv : (kvShapeCheck sep input.key3 input.value3).isOk = true)
    (hproj : (inProjectionStage sep input.query3 input.key3 input.value3 ipw
      ipb qw kw vw).isOk = true)
    (hbad : ¬(m2.d0 = input.query3.n0 ∧ m2.d1 = input.key3.n0)) :
    _multi_head_attention_forward input e h ipw ipb bk bv za dp opw opb tr
        nw (some (.rank2 m2)) sep qw kw vw sk sv avg kf v af mf pf
      = .error ([Event.inProjection], MhaError.attnMask2DShape) := by
  unfold _multi_head_attention_forward mhaCore
  simp only []
  rw [if_pos h1, if_pos h2]
  cases hkvr : kvShapeCheck sep input.key3 input.value3 with
  | error err => rw [hkvr] at hkv; simp [Except.isOk, Except.toBool] at hkv
  | ok u =>
    simp only []
    cases hpr : inProjectionStage sep input.query3 input.key3 input.value3
        ipw ipb qw kw vw with
    | error err => rw [hpr] at hproj; simp [Except.isOk, Except.toBool] at hproj
    | ok qkv =>
      obtain ⟨q0, k0, v0⟩ := qkv
      simp only []
      rw [prepAttnMask_rank2_wrongShape m2 input.query3.n0 input.key3.n0
        input.query3.n1 h hbad]
      rfl

/-- C4: whenever the configured embedding dimension is not divisible by the
(positive) number of heads, every engine call fails before any tensor
computation: the result is an error with an empty pre-error trace (either
the embed-dim check or the divisibility assertion fires first). -/
theorem claim_C4_nondivisible_heads_error (input : MhaInput) (e h : ℕ)
    (ipw : Option Tensor2) (ipb : Option Tensor1) (bk bv : Option Tensor3)
    (za : Bool) (dp : ℚ) (opw : Tensor2) (opb : Option Tensor1)
    (tr nw : Bool) (am : Option AttnMaskIn) (sep : Bool)
    (qw kw vw : Option Tensor2) (sk sv : Option Tensor3) (avg : Bool)
    (kf : KernelFn) (v : ℚ) (af : AttentionFn) (mf : MaskingFn)
    (pf : ProductFn) (hpos : 0 < h) (hdiv : e % h ≠ 0) :
    ∃ err, _multi_head_attention_forward input e h ipw ipb bk bv za dp opw
        opb tr nw am sep qw kw vw sk sv avg kf v af mf pf
      = .error ([], err) := by
  unfold _multi_head_attention_forward mhaCore
  simp only []
  by_cases hq : input.query3.n2 = e
  · have hnd : ¬(input.query3.n2 / h * h = input.query3.n2) := by
      rw [hq]
      intro hc
      have hdm := Nat.div_add_mod e h
      have hcm : h * (e / h) = e / h * h := Nat.mul_comm _ _
      omega
    exact ⟨.headDimNotDivisible, by rw [if_pos hq, if_neg hnd]; rfl⟩
  · exact ⟨.embedDimMismatch, by rw [if_neg hq]; rfl⟩

/-- Witness for C3 (amended): the concrete §8 scenario with the `[4, 3]`
mask satisfies every hypothesis and the amended conclusion. -/
theorem claim_C3_amended_witness :
    _multi_head_attention_forward (.batched cxQuery cxQuery cxQuery none) 8 2
        (some cxPackedW) none none none false 0 (cxIdW 8) none false true
        (some cxBadMask) false none none none none none true
        (softmaxLastDim cxExp) (-1) (_scaled_dot_product_attention cxDrop)
        _attn_masking (_scaled_dot_product cxSqrt)
      = .error ([Event.inProjection], MhaError.attnMask2DShape) :=
  claim_C3_amended_mask_error_after_in_projection
    (.batched cxQuery cxQuery cxQuery none) 8 2 (some cxPackedW) none none
    none false 0 (cxIdW 8) none false true false none none none none none
    true (softmaxLastDim cxExp) (-1) (_scaled_dot_product_attention cxDrop)
    _attn_masking (_scaled_dot_product cxSqrt)
    (.boolMask ⟨4, 3, fun _ _ => false⟩)
    rfl rfl (by decide) (by decide) (by decide)

/-- Witness for C4: `embed_dim = 5`, `num_heads = 2` on a concrete call
yields an error with an empty trace. -/
theorem claim_C4_witness :
    (0 < 2 ∧ 5 % 2 ≠ 0) ∧
    ∃ err, _multi_head_attention_forward
        (.batched cxQuery cxQuery cxQuery none) 5 2 (some cxPackedW) none
        none none false 0 (cxIdW 8) none false true none false none none
        none none none true (softmaxLastDim cxExp) (-1)
        (_scaled_dot_product_attention cxDrop) _attn_masking
        (_scaled_dot_product cxSqrt)
      = .error ([], err) :=
  ⟨by decide, claim_C4_nondivisible_heads_error
    (.batched cxQuery cxQuery cxQuery none) 5 2 (some cxPackedW) none none
    none false 0 (cxIdW 8) none false true none false none none none none
    none true (softmaxLastDim cxExp) (-1)
    (_scaled_dot_product_attention cxDrop) _attn_masking
    (_scaled_dot_product cxSqrt) (by decide) (by decide)⟩

/-- In evaluation mode the engine body with the default attention function
does not depend on the dropout kernel: the dropout probability is forced to
`0`, so the dropout branch is never taken. -/
theorem core_eval_dropout_independent (sqrtFn expFn : ℚ → ℚ)
    (dFn dFn' : DropoutFn) (input : MhaInput) (e h : ℕ)
    (ipw : Option Tensor2) (ipb : Option Tensor1)
    (bk bv : Option Tensor3) (za : Bool) (dp : ℚ)
    (am : Option AttnMaskIn) (sep : Bool)
    (qw kw vw : Option Tensor2) (sk sv : Option Tensor3)
    (opw : Tensor2) (opb : Option Tensor1) (v : ℚ) :
    mhaCore input e h ipw ipb bk bv za dp false am sep qw kw vw sk sv
        opw opb (softmaxLastDim expFn) v
        (_scaled_dot_product_attention dFn) _attn_masking
        (_scaled_dot_product sqrtFn)
      = mhaCore input e h ipw ipb bk bv za dp false am sep qw kw vw sk sv
          opw opb (softmaxLastDim expFn) v
          (_scaled_dot_product_attention dFn') _attn_masking
          (_scaled_dot_product sqrtFn) := by
  unfold mhaCore
  simp only []
  by_cases h1 : input.query3.n2 = e
  · simp only [if_pos h1]
    by_cases h2 : input.query3.n2 / h * h = input.query3.n2
    · simp only [if_pos h2]
      cases hkv : kvShapeCheck sep input.key3 input.value3 with
      | error err => rfl
      | ok u =>
        simp only []
        cases hproj : inProjectionStage sep input.query3 input.key3
            input.value3 ipw ipb qw kw vw with
        | error err => rfl
        | ok qkv =>
          obtain ⟨q0, k0, v0⟩ := qkv
          simp only []
          cases hmask : prepAttnMask am input.query3.n0 input.key3.n0
              input.query3.n1 h with
          | error err => rfl
          | ok am1 =>
            simp only []
            cases hbias : biasKVStage bk bv sk sv input.query3.n1
                k0 v0 am1 input.kpm2 with
            | error err => rfl
            | ok kvm =>
              obtain ⟨k1, v1, am2, kpm1⟩ := kvm
              simp only []
              cases hks : staticKStage sk k1
                  (input.query3.n1 * h) (input.query3.n2 / h) with
              | error err => rfl
              | ok k2 =>
                simp only []
                cases hvs : staticVStage sv v1
                    (input.query3.n1 * h) (input.query3.n2 / h) with
                | error err => rfl
                | ok v2 =>
                  simp only []
                  cases hmg : mergeKeyPaddingMask
                      (zeroAttnStage za (input.query3.n1 * h)
                        (input.query3.n2 / h) k2 v2 am2 kpm1).2.2.2
                      (zeroAttnStage za (input.query3.n1 * h)
                        (input.query3.n2 / h) k2 v2 am2 kpm1).2.2.1
                      input.query3.n1 h
                      (zeroAttnStage za (input.query3.n1 * h)
                        (input.query3.n2 / h) k2 v2 am2 kpm1).1.n1
                      v with
                  | error err => rfl
                  | ok am4 => rfl
    · simp only [if_neg h2]
  · simp only [if_neg h1]

/-- In evaluation mode the full engine with the default attention function
does not depend on the dropout kernel. -/
theorem mha_forward_eval_dropout_independent (sqrtFn expFn : ℚ → ℚ)
    (dFn dFn' : DropoutFn) (input : MhaInput) (e h : ℕ)
    (ipw : Option Tensor2) (ipb : Option Tensor1)
    (bk bv : Option Tensor3) (za : Bool) (dp : ℚ)
    (opw : Tensor2) (opb : Option Tensor1) (nw : Bool)
    (am : Option AttnMaskIn) (sep : Bool)
    (qw kw vw : Option Tensor2) (sk sv : Option Tensor3) (avg : Bool)
    (v : ℚ) :
    _multi_head_attention_forward input e h ipw ipb bk bv za dp opw opb
        false nw am sep qw kw vw sk sv avg (softmaxLastDim expFn) v
        (_scaled_dot_product_attention dFn) _attn_masking
        (_scaled_dot_product sqrtFn)
      = _multi_head_attention_forward input e h ipw ipb bk bv za dp opw opb
          false nw am sep qw kw vw sk sv avg (softmaxLastDim expFn) v
          (_scaled_dot_product_attention dFn') _attn_masking
          (_scaled_dot_product sqrtFn) := by
  unfold _multi_head_attention_forward
  rw [core_eval_dropout_independent sqrtFn expFn dFn dFn' input e h ipw ipb
    bk bv za dp am sep qw kw vw sk sv opw opb v]

/-- C6: in evaluation mode (`training = false`) two forward calls of the
default-configured adapter with identical inputs and weights return
identical results whatever the dropout kernel does — the effective dropout
probability is forced to `0`, so the computation is deterministic.  The two
calls are modelled by two arbitrary dropout kernels `dFn`, `dFn'` (two draws
of the hidden randomness). -/
theorem claim_C6_eval_mode_deterministic (sqrtFn expFn : ℚ → ℚ)
    (dFn dFn' : DropoutFn) (mask_fill_value : ℚ) (l : MultiheadAttention)
    (input : MhaInput) (nw : Bool) (am : Option AttnMaskIn) (avg : Bool)
    (htr : l.training = false) :
    (mkDefaultAdapter sqrtFn expFn dFn mask_fill_value l).forward input nw
        am avg
      = (mkDefaultAdapter sqrtFn expFn dFn' mask_fill_value l).forward
          input nw am avg := by
  unfold CustomizableMultiHead.forward CustomizableMultiHead.forwardE
    mkDefaultAdapter
  simp only []
  rw [htr]
  cases hq : l.qkv_same_embed_dim with
  | true =>
      simp only [if_pos rfl]
      rw [mha_forward_eval_dropout_independent sqrtFn expFn dFn dFn'
        (if l.batch_first then input.transposeFirstTwo else input)
        l.embed_dim l.num_heads l.in_proj_weight l.in_proj_bias l.bias_k
        l.bias_v l.add_zero_attn l.dropout l.out_proj_weight l.out_proj_bias
        nw am false none none none none none avg mask_fill_value]
      rfl
  | false =>
      simp only [Bool.false_eq_true, if_neg, if_false]
      rw [mha_forward_eval_dropout_independent sqrtFn expFn dFn dFn'
        (if l.batch_first then input.transposeFirstTwo else input)
        l.embed_dim l.num_heads l.in_proj_weight l.in_proj_bias l.bias_k
        l.bias_v l.add_zero_attn l.dropout l.out_proj_weight l.out_proj_bias
        nw am true l.q_proj_weight l.k_proj_weight l.v_proj_weight none none
        avg mask_fill_value]

/-- Witness for C6: a concrete evaluation-mode layer run with the identity
dropout draw and with the all-zero dropout draw gives the same result. -/
theorem claim_C6_witness :
    (mkDefaultAdapter cxSqrt cxExp cxDrop (-1)
        ⟨8, 2, 1/2, false, false, 8, 8, some cxPackedW, none, none, none,
         none, none, none, cxIdW 8, none, false⟩).forward
        (.batched cxQuery cxQuery cxQuery none) true none true
      = (mkDefaultAdapter cxSqrt cxExp cxDropZero (-1)
          ⟨8, 2, 1/2, false, false, 8, 8, some cxPackedW, none, none, none,
           none, none, none, cxIdW 8, none, false⟩).forward
          (.batched cxQuery cxQuery cxQuery none) true none true :=
  claim_C6_eval_mode_deterministic cxSqrt cxExp cxDrop cxDropZero (-1)
    ⟨8, 2, 1/2, false, false, 8, 8, some cxPackedW, none, none, none, none,
     none, none, cxIdW 8, none, false⟩
    (.batched cxQuery cxQuery cxQuery none) true none true rfl

/-- C5: on a batched run that reaches the weight-reduction tail with
per-head raw weights of shape `[bsz*H, tgt_len, src_len]`, requesting
weights with `average_attn_weights = False` returns the
`[bsz, H, tgt_len, src_len]` view of the unaveraged per-head weights
(entry `(b, hh, i, j)` is raw entry `(b*H + hh, i, j)`), and with
`average_attn_weights = True` returns the `[bsz, tgt_len, src_len]` tensor
equal to that view summed over the head dimension and divided by the head
count. -/
theorem claim_C5_weight_averaging (input : MhaInput) (e h : ℕ)
    (ipw : Option Tensor2) (ipb : Option Tensor1) (bk bv : Option Tensor3)
    (za : Bool) (dp : ℚ) (opw : Tensor2) (opb : Option Tensor1)
    (tr : Bool) (am : Option AttnMaskIn) (sep : Bool)
    (qw kw vw : Option Tensor2) (sk sv : Option Tensor3)
    (kf : KernelFn) (v : ℚ) (af : AttentionFn) (mf : MaskingFn)
    (pf : ProductFn) (c : CoreOut)
    (hc : mhaCore input e h ipw ipb bk bv za dp tr am sep qw kw vw sk sv
      opw opb kf v af mf pf = .ok c)
    (hbat : c.is_batched = true)
    (hn1 : c.raw_weights.n1 = c.tgt_len)
    (hn2 : c.raw_weights.n2 = c.src_len) :
    _multi_head_attention_forward input e h ipw ipb bk bv za dp opw opb tr
        true am sep qw kw vw sk sv false kf v af mf pf
      = .ok ⟨.t3 c.attn_output,
          some (.t4 (c.raw_weights.view4 c.bsz h c.tgt_len c.src_len))⟩
    ∧ _multi_head_attention_forward input e h ipw ipb bk bv za dp opw opb tr
        true am sep qw kw vw sk sv true kf v af mf pf
      = .ok ⟨.t3 c.attn_output,
          some (.t3 ((c.raw_weights.view4 c.bsz h c.tgt_len
            c.src_len).sumDim1.divScalar (h : ℚ)))⟩
    ∧ (c.raw_weights.view4 c.bsz h c.tgt_len c.src_len).n0 = c.bsz
    ∧ (c.raw_weights.view4 c.bsz h c.tgt_len c.src_len).n1 = h
    ∧ (c.raw_weights.view4 c.bsz h c.tgt_len c.src_len).n2 = c.tgt_len
    ∧ (c.raw_weights.view4 c.bsz h c.tgt_len c.src_len).n3 = c.src_len
    ∧ ((c.raw_weights.view4 c.bsz h c.tgt_len
        c.src_len).sumDim1.divScalar (h : ℚ)).n0 = c.bsz
    ∧ ((c.raw_weights.view4 c.bsz h c.tgt_len
        c.src_len).sumDim1.divScalar (h : ℚ)).n1 = c.tgt_len
    ∧ ((c.raw_weights.view4 c.bsz h c.tgt_len
        c.src_len).sumDim1.divScalar (h : ℚ)).n2 = c.src_len
    ∧ (∀ b hh i j, i < c.tgt_len → j < c.src_len →
        (c.raw_weights.view4 c.bsz h c.tgt_len c.src_len).ent b hh i j
          = c.raw_weights.ent (b * h + hh) i j)
    ∧ (∀ b i j,
        ((c.raw_weights.view4 c.bsz h c.tgt_len
          c.src_len).sumDim1.divScalar (h : ℚ)).ent b i j
          = (∑ hh ∈ Finset.range h,
              (c.raw_weights.view4 c.bsz h c.tgt_len c.src_len).ent b hh i j)
              / (h : ℚ)) := by
  refine ⟨?_, ?_, rfl, rfl, rfl, rfl, rfl, rfl, rfl, ?_, fun b i j => rfl⟩
  · unfold _multi_head_attention_forward
    rw [hc]
    show Except.ok (mhaTail h true false c) = _
    unfold mhaTail
    rw [if_pos rfl, if_neg (by simp), if_pos hbat]
  · unfold _multi_head_attention_forward
    rw [hc]
    show Except.ok (mhaTail h true true c) = _
    unfold mhaTail
    rw [if_pos rfl, if_pos rfl, if_pos hbat]
  · intro b hh i j hi hj
    exact view4_ent_eq c.raw_weights c.bsz h c.tgt_len c.src_len b hh i j
      hn1 hn2 hi hj

/-- Core output of the concrete §8 scenario run (packed identity-like
weights, batched `[3, 1, 8]` input, evaluation mode, no masks). -/
def cxCore : CoreOut :=
  coreResultOf (mhaCore (.batched cxQuery cxQuery cxQuery none) 8 2
    (some cxPackedW) none none none false 0 false none false none none none
    none none (cxIdW 8) none (softmaxLastDim cxExp) (-1)
    (_scaled_dot_product_attention cxDrop) _attn_masking
    (_scaled_dot_product cxSqrt))

/-- Witness for C5: the concrete §8 scenario satisfies the hypotheses, and
the unaveraged-weights conclusion holds there. -/
theorem claim_C5_witness :
    _multi_head_attention_forward (.batched cxQuery cxQuery cxQuery none) 8 2
        (some cxPackedW) none none none false 0 (cxIdW 8) none false true
        none false none none none none none false (softmaxLastDim cxExp)
        (-1) (_scaled_dot_product_attention cxDrop) _attn_masking
        (_scaled_dot_product cxSqrt)
      = .ok ⟨.t3 cxCore.attn_output,
          some (.t4 (cxCore.raw_weights.view4 cxCore.bsz 2 cxCore.tgt_len
            cxCore.src_len))⟩ :=
  (claim_C5_weight_averaging (.batched cxQuery cxQuery cxQuery none) 8 2
    (some cxPackedW) none none none false 0 (cxIdW 8) none false none false
    none none none none none (softmaxLastDim cxExp) (-1)
    (_scaled_dot_product_attention cxDrop) _attn_masking
    (_scaled_dot_product cxSqrt) cxCore rfl rfl rfl rfl).1

/-- C7: a key padding mask of shape `[bsz, src_len]` is expanded to
`[bsz*heads, 1, src_len]` with entry `(g, 0, s)` equal to entry
`(g / heads, s)` of the original mask; if no attention mask exists the
expansion becomes the attention mask, two boolean masks combine by logical
or, and a floating attention mask has the padding positions filled with the
mask-fill value. -/
theorem claim_C7_key_padding_merge (kp : BTensor2) (bsz H src : ℕ) (v : ℚ)
    (hn0 : kp.n0 = bsz) (hn1 : kp.n1 = src) (hH : 0 < H) :
    (expandKeyPaddingMask kp bsz H src).n0 = bsz * H
    ∧ (expandKeyPaddingMask kp bsz H src).n1 = 1
    ∧ (expandKeyPaddingMask kp bsz H src).n2 = src
    ∧ (∀ g s, s < src →
        (expandKeyPaddingMask kp bsz H src).ent g 0 s = kp.ent (g / H) s)
    ∧ mergeKeyPaddingMask (some kp) none bsz H src v
        = .ok (some (.boolMask (expandKeyPaddingMask kp bsz H src)))
    ∧ (∀ m, mergeKeyPaddingMask (some kp) (some (.boolMask m)) bsz H src v
        = .ok (some (.boolMask
            (m.logicalOr (expandKeyPaddingMask kp bsz H src)))))
    ∧ (∀ m, mergeKeyPaddingMask (some kp) (some (.floatMask m)) bsz H src v
        = .ok (some (.floatMask
            (m.maskedFill (expandKeyPaddingMask kp bsz H src) v))))
    ∧ (∀ (m : BTensor3) (g i s : ℕ), g < bsz * H → s < src →
        (m.logicalOr (expandKeyPaddingMask kp bsz H src)).ent g i s
          = (m.ent (bIdx m.n0 g) (bIdx m.n1 i) (bIdx m.n2 s)
              || kp.ent (g / H) s))
    ∧ (∀ (m : Tensor3) (g i s : ℕ), g < bsz * H → s < src →
        (m.maskedFill (expandKeyPaddingMask kp bsz H src) v).ent g i s
          = if kp.ent (g / H) s then v
            else m.ent (bIdx m.n0 g) (bIdx m.n1 i) (bIdx m.n2 s)) := by
  have hshape : kp.n0 = bsz ∧ kp.n1 = src := ⟨hn0, hn1⟩
  have hexp : ∀ g s, s < src →
      (expandKeyPaddingMask kp bsz H src).ent g 0 s = kp.ent (g / H) s :=
    fun g s hs => expandKeyPaddingMask_ent kp bsz H src g s hn1 hH hs
  have hbidx : ∀ g s, g < bsz * H → s < src →
      (expandKeyPaddingMask kp bsz H src).ent (bIdx (bsz * H) g) 0
          (bIdx src s)
        = kp.ent (g / H) s := by
    intro g s hg hs
    have h1 : bIdx (bsz * H) g = g := by
      unfold bIdx; split
      · omega
      · rfl
    have h2 : bIdx src s = s := by
      unfold bIdx; split
      · omega
      · rfl
    rw [h1, h2]
    exact hexp g s hs
  refine ⟨rfl, rfl, rfl, hexp, ?_, ?_, ?_, ?_, ?_⟩
  · show (if kp.n0 = bsz ∧ kp.n1 = src then _ else _) = _
    rw [if_pos hshape]
  · intro m
    show (if kp.n0 = bsz ∧ kp.n1 = src then _ else _) = _
    rw [if_pos hshape]
  · intro m
    show (if kp.n0 = bsz ∧ kp.n1 = src then _ else _) = _
    rw [if_pos hshape]
  · intro m g i s hg hs
    show (m.ent (bIdx m.n0 g) (bIdx m.n1 i) (bIdx m.n2 s) || _) = _
    rw [show bIdx (expandKeyPaddingMask kp bsz H src).n0 g
      = bIdx (bsz * H) g from rfl]
    rw [show bIdx (expandKeyPaddingMask kp bsz H src).n2 s
      = bIdx src s from rfl]
    rw [show bIdx (expandKeyPaddingMask kp bsz H src).n1 i = 0 from rfl]
    rw [hbidx g s hg hs]
  · intro m g i s hg hs
    show (if (expandKeyPaddingMask kp bsz H src).ent
        (bIdx (expandKeyPaddingMask kp bsz H src).n0 g)
        (bIdx (expandKeyPaddingMask kp bsz H src).n1 i)
        (bIdx (expandKeyPaddingMask kp bsz H src).n2 s) then v
      else m.ent (bIdx m.n0 g) (bIdx m.n1 i) (bIdx m.n2 s)) = _
    rw [show bIdx (expandKeyPaddingMask kp bsz H src).n1 i = 0 from rfl]
    rw [show bIdx (expandKeyPaddingMask kp bsz H src).n0 g
      = bIdx (bsz * H) g from rfl]
    rw [show bIdx (expandKeyPaddingMask kp bsz H src).n2 s
      = bIdx src s from rfl]
    rw [hbidx g s hg hs]

/-- Witness for C7: a concrete `[1, 3]` padding mask with two heads. -/
theorem claim_C7_witness :
    ((1 : ℕ) ≤ 1 * 2) ∧
    mergeKeyPaddingMask (some ⟨1, 3, fun _ s => s = 0⟩) none 1 2 3 (-1)
      = .ok (some (.boolMask
          (expandKeyPaddingMask ⟨1, 3, fun _ s => s = 0⟩ 1 2 3))) :=
  ⟨by decide,
   (claim_C7_key_padding_merge ⟨1, 3, fun _ s => s = 0⟩ 1 2 3 (-1) rfl rfl
     (by decide)).2.2.2.2.1⟩

/-- Concrete reference layer for witnesses (the §8 configuration, in
evaluation mode). -/
def cxLayer : MultiheadAttention :=
  ⟨8, 2, 0, false, false, 8, 8, some cxPackedW, none, none, none, none,
   none, none, cxIdW 8, none, false⟩

/-- C8: `get_pretrained_approximation` returns its argument unchanged when
the argument is a `CustomizableMultiHead` adapter instance, and raises an
error exactly when it is not. -/
theorem claim_C8_pretrained_passthrough (module : AnyModule) :
    (module.isCustomizable = true →
      get_pretrained_approximation module = .ok module)
    ∧ (module.isCustomizable = false →
      get_pretrained_approximation module
        = .error .notCustomizableModule) := by
  cases module with
  | customizable m => exact ⟨fun _ => rfl, fun hf => Bool.noConfusion hf⟩
  | multihead l => exact ⟨fun ht => Bool.noConfusion ht, fun _ => rfl⟩
  | other => exact ⟨fun ht => Bool.noConfusion ht, fun _ => rfl⟩

/-- Witness for C8: identity on a concrete adapter, an error on a
non-adapter module. -/
theorem claim_C8_witness :
    get_pretrained_approximation
        (.customizable (mkDefaultAdapter cxSqrt cxExp cxDrop (-1) cxLayer))
      = .ok (.customizable (mkDefaultAdapter cxSqrt cxExp cxDrop (-1)
          cxLayer))
    ∧ get_pretrained_approximation .other
      = .error .notCustomizableModule :=
  ⟨(claim_C8_pretrained_passthrough
      (.customizable (mkDefaultAdapter cxSqrt cxExp cxDrop (-1)
        cxLayer))).1 rfl,
   (claim_C8_pretrained_passthrough .other).2 rfl⟩

/-- C9: `get_trainable_approximation` writes the source layer's
configuration into the persistent parameters dictionary for every key not
already present (a present key is kept); consequently, starting from an
empty dictionary, a second call with a different source layer builds the new
approximation from the configuration stored by the first call — every
configuration field of the second module comes from the first layer, not the
second. -/
theorem claim_C9_parameters_persist (sqrtFn expFn : ℚ → ℚ)
    (dFn : DropoutFn) (fill : ℚ) (p : ApproxParams)
    (l1 l2 : MultiheadAttention) (i1 i2 : InitWeights) :
    (get_trainable_approximation sqrtFn expFn dFn fill p l1 i1).1
      = ⟨some (p.embed_dim.getD l1.embed_dim),
         some (p.num_heads.getD l1.num_heads),
         some (p.batch_first.getD l1.batch_first),
         some (p.dropout.getD l1.dropout),
         some (p.bias.getD l1.in_proj_bias.isSome),
         some (p.add_bias_kv.getD l1.bias_k.isSome),
         some (p.add_zero_attn.getD l1.add_zero_attn),
         some (p.kdim.getD l1.kdim),
         some (p.vdim.getD l1.vdim)⟩
    ∧ (get_trainable_approximation sqrtFn expFn dFn fill
        (get_trainable_approximation sqrtFn expFn dFn fill emptyParams l1
          i1).1 l2 i2).2.embed_dim = l1.embed_dim
    ∧ (get_trainable_approximation sqrtFn expFn dFn fill
        (get_trainable_approximation sqrtFn expFn dFn fill emptyParams l1
          i1).1 l2 i2).2.num_heads = l1.num_heads
    ∧ (get_trainable_approximation sqrtFn expFn dFn fill
        (get_trainable_approximation sqrtFn expFn dFn fill emptyParams l1
          i1).1 l2 i2).2.batch_first = l1.batch_first
    ∧ (get_trainable_approximation sqrtFn expFn dFn fill
        (get_trainable_approximation sqrtFn expFn dFn fill emptyParams l1
          i1).1 l2 i2).2.dropout = l1.dropout
    ∧ (get_trainable_approximation sqrtFn expFn dFn fill
        (get_trainable_approximation sqrtFn expFn dFn fill emptyParams l1
          i1).1 l2 i2).2.add_zero_attn = l1.add_zero_attn
    ∧ (get_trainable_approximation sqrtFn expFn dFn fill
        (get_trainable_approximation sqrtFn expFn dFn fill emptyParams l1
          i1).1 l2 i2).2.kdim = l1.kdim
    ∧ (get_trainable_approximation sqrtFn expFn dFn fill
        (get_trainable_approximation sqrtFn expFn dFn fill emptyParams l1
          i1).1 l2 i2).2.vdim = l1.vdim
    ∧ (get_trainable_approximation sqrtFn expFn dFn fill
        (get_trainable_approximation sqrtFn expFn dFn fill emptyParams l1
          i1).1 l2 i2).2.qkv_same_embed_dim
        = decide (l1.kdim = l1.embed_dim ∧ l1.vdim = l1.embed_dim) :=
  ⟨rfl, rfl, rfl, rfl, rfl, rfl, rfl, rfl, rfl⟩

/-- C10: `_attn_masking` returns the very same tensor object it received;
with a mask present it updates that object in place by the broadcast
element-wise addition `attn += attn_mask` (no other heap cell changes), with
no mask it leaves the heap untouched; and it never reads its
`attn_mask_value` parameter (its result is invariant under changing it), at
the object level and at the value level alike. -/
theorem claim_C10_attn_masking_in_place (h : Heap) (attn mref : ℕ)
    (v v' : ℚ) :
    attnMaskingObj h attn none v = (h, attn)
    ∧ attnMaskingObj h attn (some mref) v
        = (h.set attn ((h attn).addInto (h mref)), attn)
    ∧ (attnMaskingObj h attn (some mref) v).2 = attn
    ∧ (attnMaskingObj h attn (some mref) v).1 attn
        = (h attn).addInto (h mref)
    ∧ (∀ r, r ≠ attn → (attnMaskingObj h attn (some mref) v).1 r = h r)
    ∧ attnMaskingObj h attn none v = attnMaskingObj h attn none v'
    ∧ attnMaskingObj h attn (some mref) v
        = attnMaskingObj h attn (some mref) v'
    ∧ (∀ (a b : Tensor3) (i j k : ℕ),
        (_attn_masking a (some b) v).ent i j k
          = a.ent i j k +
              b.ent (bIdx b.n0 i) (bIdx b.n1 j) (bIdx b.n2 k))
    ∧ (∀ a : Tensor3, _attn_masking a none v = a)
    ∧ (∀ (a : Tensor3) (m : Option Tensor3),
        _attn_masking a m v = _attn_masking a m v') := by
  refine ⟨rfl, rfl, rfl, ?_, ?_, rfl, rfl, fun a b i j k => rfl,
    fun a => rfl, fun a m => ?_⟩
  · show (if attn = attn then _ else _) = _
    rw [if_pos rfl]
  · intro r hr
    show (if r = attn then _ else _) = _
    rw [if_neg hr]
  · cases m <;> rfl

/-- Witness for C10 at a concrete heap: the reference returned is the input
reference, other heap cells are untouched. -/
theorem claim_C10_witness :
    ((attnMaskingObj (fun _ => cxQuery) 0 (some 1) (-1)).2 = 0)
    ∧ ((attnMaskingObj (fun _ => cxQuery) 0 (some 1) (-1)).1 1
        = cxQuery) :=
  ⟨(claim_C10_attn_masking_in_place (fun _ => cxQuery) 0 1 (-1) 7).2.2.1,
   (claim_C10_attn_masking_in_place (fun _ => cxQuery) 0 1 (-1)
     7).2.2.2.2.1 1 (by decide)⟩

/-! ### Claim C2: extraction round trip -/

/-- The `[1, 1]` all-ones tensor. -/
def cxOne : Tensor2 := ⟨1, 1, fun _ _ => 1⟩

/-- The `[3, 1]` all-ones packed projection weight. -/
def cxSmallW3 : Tensor2 := ⟨3, 1, fun _ _ => 1⟩

/-- The `[1, 1]` all-ones output projection weight. -/
def cxOneW : Tensor2 := ⟨1, 1, fun _ _ => 1⟩

/-- A tiny reference layer in evaluation mode with dropout rate 1/2. -/
def cxSmallLayer : MultiheadAttention :=
  ⟨1, 1, 1/2, false, false, 1, 1, some cxSmallW3, none, none, none, none,
   none, none, cxOneW, none, false⟩

/-- All-zero fresh initialization (its values never survive extraction from
a well-formed layer). -/
def cxInit : InitWeights :=
  ⟨⟨0, 0, fun _ _ => 0⟩, ⟨0, fun _ => 0⟩, ⟨0, 0, fun _ _ => 0⟩,
   ⟨0, 0, fun _ _ => 0⟩, ⟨0, 0, fun _ _ => 0⟩, Tensor3.zeros 0 0 0,
   Tensor3.zeros 0 0 0, ⟨0, 0, fun _ _ => 0⟩, ⟨0, fun _ => 0⟩⟩

/-- Entry `(0, 0)` of a rank-2 attention output (a fixed sentinel
otherwise). -/
def outEnt00 (x : Except MhaError MhaOutput) : ℚ :=
  match x with
  | .ok ⟨.t2 o, _⟩ => o.ent 0 0
  | _ => 99

/-- A copied parameter equals the source attribute whenever the source
attribute being absent forces the construction flag off. -/
theorem overrideOpt_flag_some {α : Type} (src : Option α) (dflt : α)
    (flag : Bool) (hf : src = none → flag = false) :
    overrideOpt src (if flag then some dflt else none) = src := by
  cases src with
  | some a => rfl
  | none => rw [hf rfl]; rfl

/-- A copied parameter equals the source attribute whenever the source
attribute being absent forces the construction flag on (the
separate-projection fields, which exist exactly when the flag is off). -/
theorem overrideOpt_flag_none {α : Type} (src : Option α) (dflt : α)
    (flag : Bool) (hf : src = none → flag = true) :
    overrideOpt src (if flag then none else some dflt) = src := by
  cases src with
  | some a => rfl
  | none => rw [hf rfl]; rfl

/-- Extraction from a well-formed layer, followed by an external training
toggle, yields exactly the default adapter of the equally toggled layer:
configuration and every parameter tensor are carried over. -/
theorem extract_empty_eq_default (sqrtFn expFn : ℚ → ℚ) (dFn : DropoutFn)
    (fill : ℚ) (l : MultiheadAttention) (init : InitWeights) (t : Bool)
    (hw1 : l.in_proj_weight = none → l.qkv_same_embed_dim = false)
    (hw2 : l.q_proj_weight = none → l.qkv_same_embed_dim = true)
    (hw3 : l.k_proj_weight = none → l.qkv_same_embed_dim = true)
    (hw4 : l.v_proj_weight = none → l.qkv_same_embed_dim = true)
    (hw5 : l.bias_v = none → l.bias_k.isSome = false)
    (hw6 : l.out_proj_bias = none → l.in_proj_bias.isSome = false) :
    ((get_trainable_approximation sqrtFn expFn dFn fill emptyParams l
        init).2).setTraining t
      = mkDefaultAdapter sqrtFn expFn dFn fill (l.setTraining t) := by
  unfold get_trainable_approximation CustomizableMultiHead.setTraining
    mkDefaultAdapter MultiheadAttention.setTraining
    CustomizableMultiHead.construct emptyParams
    MultiheadAttention.qkv_same_embed_dim
  unfold MultiheadAttention.qkv_same_embed_dim at hw1 hw2 hw3 hw4
  simp only [Option.getD_some, Option.getD_none]
  rw [overrideOpt_flag_some l.in_proj_weight init.in_proj_weight _ hw1]
  rw [overrideOpt_flag_some l.in_proj_bias init.in_proj_bias
    l.in_proj_bias.isSome (fun h => by rw [h]; rfl)]
  rw [overrideOpt_flag_none l.q_proj_weight init.q_proj_weight _ hw2]
  rw [overrideOpt_flag_none l.k_proj_weight init.k_proj_weight _ hw3]
  rw [overrideOpt_flag_none l.v_proj_weight init.v_proj_weight _ hw4]
  rw [overrideOpt_flag_some l.bias_k init.bias_k l.bias_k.isSome
    (fun h => by rw [h]; rfl)]
  rw [overrideOpt_flag_some l.bias_v init.bias_v l.bias_k.isSome hw5]
  rw [overrideOpt_flag_some l.out_proj_bias init.out_proj_bias
    l.in_proj_bias.isSome hw6]

set_option maxHeartbeats 4000000 in
/-- C2 counterexample: a tiny evaluation-mode layer with dropout rate 1/2.
Extraction builds the adapter in (fresh) training mode, so calling its
forward applies dropout while the source layer's forward does not: for the
dropout draw that zeroes the attention weights the outputs differ (adapter
output entry 0, layer output entry 1), refuting output equality for every
existing layer and any inputs. -/
theorem claim_C2_counterexample :
    outEnt00 ((get_trainable_approximation cxSqrt cxExp cxDropZero (-1)
        emptyParams cxSmallLayer cxInit).2.forward
        (.unbatched cxOne cxOne cxOne none) true none true)
      ≠ outEnt00 (cxSmallLayer.reference_forward cxSqrt cxExp cxDropZero
          (-1) (.unbatched cxOne cxOne cxOne none) true none true) := by
  have h1 : outEnt00 ((get_trainable_approximation cxSqrt cxExp cxDropZero
      (-1) emptyParams cxSmallLayer cxInit).2.forward
      (.unbatched cxOne cxOne cxOne none) true none true) = 0 := by
    simp only [outEnt00, get_trainable_approximation, emptyParams,
      CustomizableMultiHead.construct, overrideOpt,
      CustomizableMultiHead.forward, CustomizableMultiHead.forwardE,
      _multi_head_attention_forward, mhaCore, mhaTail,
      _scaled_dot_product_attention, _attn_masking, _scaled_dot_product,
      MultiheadAttention.reference_forward,
      MultiheadAttention.qkv_same_embed_dim,
      referenceMultiHeadAttentionForward, referenceCore, referenceTail,
      referenceScaledDotProductAttention,
      kvShapeCheck, inProjectionStage, _in_projection_packed, chunkSize3,
      linear, prepAttnMask, biasKVStage, staticKStage, staticVStage,
      zeroAttnStage, mergeKeyPaddingMask, finalizeMask, softmaxLastDim,
      Tensor3.bmm, Tensor3.divScalar, Tensor3.transpose01,
      Tensor3.transpose12, Tensor3.view3, Tensor3.flat, Tensor2.unsqueeze1,
      Tensor2.slice0, Tensor1.slice, MhaInput.query3, MhaInput.key3,
      MhaInput.value3, MhaInput.kpm2, MhaInput.isBatched,
      MhaInput.transposeFirstTwo, Tensor3.squeeze1, Tensor4.sumDim1,
      Tensor4.squeeze0, Tensor3.squeeze0, Tensor3.view4, cxSmallLayer,
      cxOne, cxSmallW3, cxOneW, cxSqrt, cxExp, cxDropZero, cxInit,
      Except.map, Except.mapError, Finset.sum_range_one,
      Finset.sum_range_succ, Tensor3.zeros, MhaOutput.transposeFirstTwo]
    norm_num
  have h2 : outEnt00 (cxSmallLayer.reference_forward cxSqrt cxExp cxDropZero
      (-1) (.unbatched cxOne cxOne cxOne none) true none true) = 1 := by
    simp only [outEnt00, get_trainable_approximation, emptyParams,
      CustomizableMultiHead.construct, overrideOpt,
      CustomizableMultiHead.forward, CustomizableMultiHead.forwardE,
      _multi_head_attention_forward, mhaCore, mhaTail,
      _scaled_dot_product_attention, _attn_masking, _scaled_dot_product,
      MultiheadAttention.reference_forward,
      MultiheadAttention.qkv_same_embed_dim,
      referenceMultiHeadAttentionForward, referenceCore, referenceTail,
      referenceScaledDotProductAttention,
      kvShapeCheck, inProjectionStage, _in_projection_packed, chunkSize3,
      linear, prepAttnMask, biasKVStage, staticKStage, staticVStage,
      zeroAttnStage, mergeKeyPaddingMask, finalizeMask, softmaxLastDim,
      Tensor3.bmm, Tensor3.divScalar, Tensor3.transpose01,
      Tensor3.transpose12, Tensor3.view3, Tensor3.flat, Tensor2.unsqueeze1,
      Tensor2.slice0, Tensor1.slice, MhaInput.query3, MhaInput.key3,
      MhaInput.value3, MhaInput.kpm2, MhaInput.isBatched,
      MhaInput.transposeFirstTwo, Tensor3.squeeze1, Tensor4.sumDim1,
      Tensor4.squeeze0, Tensor3.squeeze0, Tensor3.view4, cxSmallLayer,
      cxOne, cxSmallW3, cxOneW, cxSqrt, cxExp, cxDropZero, cxInit,
      Except.map, Except.mapError, Finset.sum_range_one,
      Finset.sum_range_succ, Tensor3.zeros, MhaOutput.transposeFirstTwo]
    norm_num
  rw [h1, h2]
  norm_num

/-- C2 (amended): for every well-formed layer, extracting the adapter and
putting both modules in the same training mode yields equal forward outputs
on all inputs, provided dropout is ineffective — the layer's dropout rate is
zero or the shared mode is evaluation.  (The unamended claim fails because
the freshly extracted adapter is in training mode while the source layer's
mode is arbitrary, so a nonzero dropout rate makes the two calls diverge.) -/
theorem claim_C2_amended_roundtrip_fidelity (sqrtFn expFn : ℚ → ℚ)
    (dFn : DropoutFn) (fill : ℚ) (l : MultiheadAttention)
    (init : InitWeights) (input : MhaInput) (nw : Bool)
    (am : Option AttnMaskIn) (avg : Bool) (t : Bool)
    (hw1 : l.in_proj_weight = none → l.qkv_same_embed_dim = false)
    (hw2 : l.q_proj_weight = none → l.qkv_same_embed_dim = true)
    (hw3 : l.k_proj_weight = none → l.qkv_same_embed_dim = true)
    (hw4 : l.v_proj_weight = none → l.qkv_same_embed_dim = true)
    (hw5 : l.bias_v = none → l.bias_k.isSome = false)
    (hw6 : l.out_proj_bias = none → l.in_proj_bias.isSome = false)
    (hdrop : l.dropout = 0 ∨ t = false) :
    (((get_trainable_approximation sqrtFn expFn dFn fill emptyParams l
        init).2).setTraining t).forward input nw am avg
      = (l.setTraining t).reference_forward sqrtFn expFn dFn fill input nw
          am avg := by
  rw [extract_empty_eq_default sqrtFn expFn dFn fill l init t hw1 hw2 hw3
    hw4 hw5 hw6]
  exact adapter_forward_default_refines_reference sqrtFn expFn dFn fill
    (l.setTraining t) input nw am avg

/-- Witness for C2 (amended): the concrete §8 layer (dropout rate 0),
round-tripped and compared in training mode. -/
theorem claim_C2_witness :
    (((get_trainable_approximation cxSqrt cxExp cxDrop (-1) emptyParams
        cxLayer cxInit).2).setTraining true).forward
        (.batched cxQuery cxQuery cxQuery none) true none true
      = (cxLayer.setTraining true).reference_forward cxSqrt cxExp cxDrop
          (-1) (.batched cxQuery cxQuery cxQuery none) true none true :=
  claim_C2_amended_roundtrip_fidelity cxSqrt cxExp cxDrop (-1) cxLayer
    cxInit (.batched cxQuery cxQuery cxQuery none) true none true true
    (fun h => Option.noConfusion h)
    (fun _ => rfl) (fun _ => rfl) (fun _ => rfl)
    (fun _ => rfl) (fun _ => rfl)
    (Or.inl rfl)

end Hela
